import Mathlib

/-!
A shallow embedding of the resource lifecycle reconcilers of
linstor-gateway: `NFS` (from `pkg/nfs/nfs.go`) and `NVMeoF` (from
`pkg/nvmeof/nvmeof.go`).

The two reconcilers orchestrate two external collaborators:

* the drbd-reactor promoter configuration store (`pkg/reactor`:
  `FindConfig`, `ListConfigs`, `EnsureConfig`, `AttachConfig`,
  `DetachConfig`, `DeleteConfig`), and
* the LINSTOR storage client (`pkg/linstorcontrol`: `EnsureResource`,
  `StatusFromResources`, resource/volume definition deletion), plus the
  per-type translators `ToPromoter` / `FromPromoter` and the validators
  `FillDefaults` / `Valid` / `Matches`.

Only the two reconciler files are part of the sources; the collaborators
are modelled from the specification (marked `Modelled from the spec:` in
their doc comments).  The whole external universe is a `World` value:
the stored promoter configurations, the LINSTOR-side deployed resources,
and a log of the mutating calls that were issued.  Every reconciler
operation is a function `World → result × World`; an operation "issues no
mutating calls" exactly when it returns the world (in particular the log)
unchanged.  Errors do not roll the world back, matching the Go code where
mutations already sent to the collaborators persist when a later step
fails.
-/

/-- Aggregated service state, from the specification's Status Aggregator
(`stopped | starting | started | unknown`). -/
inductive ServiceState where
  | stopped
  | starting
  | started
  | unknown
deriving DecidableEq

/-- Aggregated status attached to a descriptor at read time.  Per-volume
health states are not modelled: no claim mentions them. -/
structure ResourceStatus where
  Service : ServiceState
deriving DecidableEq

/-- `common.VolumeConfig`: one requested volume.  The `FileSystem` field
of the Go struct is dropped: it is constant ("ext4") wherever the
sources set it and no claim depends on it. -/
structure VolumeConfig where
  Number : Int
  SizeKiB : Nat
deriving DecidableEq

/-- A LINSTOR volume definition (`client.VolumeDefinition`). -/
structure VolumeDefinition where
  Number : Int
  SizeKiB : Nat
deriving DecidableEq

/-- A LINSTOR resource definition (`client.ResourceDefinition`); only its
name is relevant to the embedded logic. -/
structure ResourceDefinition where
  Name : String
deriving DecidableEq

/-- One per-node placement instance (`client.Resource` as used by the
reconcilers): the node it lives on, whether the node reports the resource
as in use (primary), and its per-node volume list, projected to the
volume numbers. -/
structure ResourceEntry where
  Node : String
  InUse : Bool
  Volumes : List Int
deriving DecidableEq

/-- The storage controller's full knowledge of one deployed resource. -/
structure DeployedResource where
  Name : String
  ResourceGroup : String
  VolumeDefinitions : List VolumeDefinition
  Resources : List ResourceEntry
deriving DecidableEq

/-- Modelled from the spec: one resource section of an HA Configuration
Object; `Start` is the ordered list of service-agent type strings
(`a.Type` for `a` in `r.Start` in the Go scan loop). -/
structure PromoterResource where
  Start : List String
deriving DecidableEq

/-- Modelled from the spec: the payload an HA Configuration Object
carries beyond its agents, letting `FromPromoter` reconstruct the
descriptor (service IP, resource group, the NVMe-oF qualified name, and
the gross-size flag). -/
structure Payload where
  ServiceIP : String
  ResourceGroup : String
  NQN : String
  GrossSize : Bool
deriving DecidableEq

/-- Modelled from the spec: an HA Configuration Object
(`reactor.PromoterConfig`).  `ID` is the per-type templated identifier,
`RscName` the LINSTOR resource it manages, `Resources` its service-agent
sections, `VolNumbers` its declared volume list (including volume 0, per
the spec's `ToPromoter`), `Nodes` the nodes it may promote on. -/
structure PromoterConfig where
  ID : String
  RscName : String
  Resources : List PromoterResource
  VolNumbers : List Int
  Nodes : List String
  Payl : Payload
deriving DecidableEq

/-- Modelled from the spec: a promoter configuration as stored by the
config store, together with whether it is attached (enabled). -/
structure StoredConfig where
  cfg : PromoterConfig
  enabled : Bool
deriving DecidableEq

/-- One mutating call issued to a collaborator.  Read-only calls are not
logged. -/
inductive Event where
  | ensureResource (name : String) (volNumbers : List Int)
  | deleteResourceDefinition (name : String)
  | deleteVolumeDefinition (name : String) (num : Int)
  | ensureConfig (id : String)
  | deleteConfig (id : String)
  | attachConfig (id : String)
  | detachConfig (id : String)
deriving DecidableEq

/-- Error taxonomy of the specification (§7); `notFound` is the storage
client's distinguished not-found condition (`client.NotFoundError`). -/
inductive GwError where
  | validation (msg : String)
  | conflict (msg : String)
  | backend (msg : String)
  | decode (msg : String)
  | notFound
  | timeout
deriving DecidableEq

deriving instance DecidableEq for Except

/-- The external universe: the HA config store's contents, the storage
controller's deployed resources, the placement the controller would give
a freshly created resource, and the log of mutating calls. -/
structure World where
  configs : List StoredConfig
  linstor : List DeployedResource
  defaultPlacement : List ResourceEntry
  log : List Event
deriving DecidableEq

/-! ### String helpers for the per-type naming templates -/

/-- Strips `p` from the front of `s`; `none` when `p` is not a prefix.
Character-list worker for the naming-template reverse parse. -/
def stripPrefixList : List Char → List Char → Option (List Char)
  | [], s => some s
  | _ :: _, [] => none
  | p :: ps, c :: cs => if p = c then stripPrefixList ps cs else none

/-- Reverse-parses a templated identifier: the remainder after the
template prefix, or `none` when the identifier does not match
(`fmt.Sscanf(cfg.ID, IDFormat, &rsc)` returning 0). -/
def parseTemplated (pre s : String) : Option String :=
  (stripPrefixList pre.data s.data).map String.mk

/-- `IDFormat` of `pkg/nfs`: `"nfs-%s"`. -/
def nfsId (name : String) : String := "nfs-" ++ name

/-- `IDFormat` of `pkg/nvmeof`: `"nvmeof-%s"` (the constant lives outside
the provided sources; modelled from the spec's fixed per-type naming
template). -/
def nvmeofId (subsystem : String) : String := "nvmeof-" ++ subsystem

/-- Character-list worker for `nqnSubsystem`: the segment after the last
colon. -/
def lastSegAux : List Char → List Char → List Char
  | cur, [] => cur
  | _, ':' :: cs => lastSegAux [] cs
  | cur, c :: cs => lastSegAux (cur ++ [c]) cs

/-- Modelled from the spec: `Nqn.Subsystem()` — the subsystem part of an
NVMe qualified name, i.e. the segment after the last colon. -/
def nqnSubsystem (nqn : String) : String := ⟨lastSegAux [] nqn.data⟩

/-! ### The HA config store (`pkg/reactor`), modelled from the spec -/

/-- Pure worker of `FindConfig`: first stored configuration with the
given identifier. -/
def findConfigL (l : List StoredConfig) (id : String) : Option PromoterConfig :=
  (l.find? (fun s => s.cfg.ID == id)).map (·.cfg)

/-- Modelled from the spec: `reactor.FindConfig` — find-by-id, absence is
not an error. -/
def findConfig (w : World) (id : String) : Option PromoterConfig :=
  findConfigL w.configs id

/-- Pure worker of `EnsureConfig`: replace the first stored configuration
with the same identifier, or append when none exists. -/
def upsertConfig : List StoredConfig → PromoterConfig → List StoredConfig
  | [], c => [⟨c, false⟩]
  | s :: ss, c => if s.cfg.ID = c.ID then ⟨c, s.enabled⟩ :: ss else s :: upsertConfig ss c

/-- Modelled from the spec: `reactor.EnsureConfig` — idempotent upsert of
an HA Configuration Object. -/
def ensureConfig (w : World) (c : PromoterConfig) : World :=
  { w with configs := upsertConfig w.configs c,
           log := w.log ++ [Event.ensureConfig c.ID] }

/-- Modelled from the spec: `reactor.DeleteConfig` — remove an HA
Configuration Object by identifier; removal of an absent object succeeds. -/
def deleteConfig (w : World) (id : String) : World :=
  { w with configs := w.configs.filter (fun s => s.cfg.ID != id),
           log := w.log ++ [Event.deleteConfig id] }

/-- Modelled from the spec: `reactor.AttachConfig` — permit the HA daemon
to manage the configuration (enable); does not wait. -/
def attachConfig (w : World) (c : PromoterConfig) : World :=
  { w with configs := w.configs.map (fun s => if s.cfg.ID = c.ID then { s with enabled := true } else s),
           log := w.log ++ [Event.attachConfig c.ID] }

/-- Modelled from the spec: `reactor.DetachConfig` — disable the
configuration; does not wait. -/
def detachConfig (w : World) (c : PromoterConfig) : World :=
  { w with configs := w.configs.map (fun s => if s.cfg.ID = c.ID then { s with enabled := false } else s),
           log := w.log ++ [Event.detachConfig c.ID] }

/-! ### The storage client (`pkg/linstorcontrol`), modelled from the spec -/

/-- Lookup of a deployed resource by name. -/
def findRes (w : World) (name : String) : Option DeployedResource :=
  w.linstor.find? (fun d => d.Name == name)

/-- Request argument of `EnsureResource` (`linstorcontrol.Resource`). -/
structure LinstorResource where
  Name : String
  ResourceGroup : String
  Volumes : List VolumeConfig
  GrossSize : Bool
deriving DecidableEq

/-- Pure worker: replace the deployed resource carrying the given name. -/
def updateRes (l : List DeployedResource) (name : String) (d' : DeployedResource) : List DeployedResource :=
  l.map (fun d => if d.Name = name then d' else d)

/-- Modelled from the spec: `Linstor.EnsureResource` — idempotent
create-or-reconcile.  A fresh resource is deployed on the controller's
default placement; reconciling an existing resource replaces its volume
definitions and per-node volume lists with the requested set.  Adding a
volume to a pre-existing resource is refused unless `mayExist`
(the "allow adding to existing" flag) is set. -/
def ensureResource (w : World) (req : LinstorResource) (mayExist : Bool) :
    Except GwError (ResourceDefinition × List ResourceEntry) × World :=
  let reqVds := req.Volumes.map (fun v => VolumeDefinition.mk v.Number v.SizeKiB)
  let reqNums := req.Volumes.map (·.Number)
  match findRes w req.Name with
  | none =>
    let entries := w.defaultPlacement.map (fun e => { e with Volumes := reqNums })
    (Except.ok (⟨req.Name⟩, entries),
     { w with linstor := w.linstor ++ [⟨req.Name, req.ResourceGroup, reqVds, entries⟩],
              log := w.log ++ [Event.ensureResource req.Name reqNums] })
  | some d =>
    if !mayExist && req.Volumes.any (fun v => !(d.VolumeDefinitions.any (fun vd => vd.Number == v.Number))) then
      (Except.error (GwError.backend "refusing to add volumes to a pre-existing resource"), w)
    else
      let entries := d.Resources.map (fun e => { e with Volumes := reqNums })
      let d' := { d with VolumeDefinitions := reqVds, Resources := entries }
      (Except.ok (⟨req.Name⟩, entries),
       { w with linstor := updateRes w.linstor req.Name d',
                log := w.log ++ [Event.ensureResource req.Name reqNums] })

/-- Modelled from the spec: `ResourceDefinitions.Delete` — delete a
resource definition; a missing definition yields the distinguished
`notFound` condition. -/
def deleteResourceDefinition (w : World) (name : String) : Except GwError Unit × World :=
  match findRes w name with
  | none => (Except.error GwError.notFound, w)
  | some _ =>
    (Except.ok (),
     { w with linstor := w.linstor.filter (fun d => d.Name != name),
              log := w.log ++ [Event.deleteResourceDefinition name] })

/-- Modelled from the spec: `ResourceDefinitions.DeleteVolumeDefinition`
— delete one volume definition; the controller also drops the volume
from every node's placement.  A missing resource or volume yields
`notFound`. -/
def deleteVolumeDefinition (w : World) (name : String) (num : Int) : Except GwError Unit × World :=
  match findRes w name with
  | none => (Except.error GwError.notFound, w)
  | some d =>
    if d.VolumeDefinitions.any (fun vd => vd.Number == num) then
      let d' := { d with VolumeDefinitions := d.VolumeDefinitions.filter (fun vd => vd.Number != num),
                         Resources := d.Resources.map (fun e => { e with Volumes := e.Volumes.filter (fun n => n != num) }) }
      (Except.ok (),
       { w with linstor := updateRes w.linstor name d',
                log := w.log ++ [Event.deleteVolumeDefinition name num] })
    else (Except.error GwError.notFound, w)

/-- `common.AnyResourcesInUse`: some node reports the resource in use. -/
def anyResourcesInUse (ress : List ResourceEntry) : Bool := ress.any (·.InUse)

/-- `common.NoResourcesInUse`: no node reports the resource in use. -/
def noResourcesInUse (ress : List ResourceEntry) : Bool := !ress.any (·.InUse)

/-- Modelled from the spec: `common.WaitUntilResourceCondition` — poll the
placement state under a deadline until the predicate holds.  The world
does not evolve during a wait, so the bounded poll loop collapses to a
single evaluation: the condition either already holds or the deadline
elapses (`timeout`). -/
def waitUntilResourceCondition (w : World) (name : String) (pred : List ResourceEntry → Bool) :
    Except GwError Unit :=
  let ress := ((findRes w name).map (·.Resources)).getD []
  if pred ress then Except.ok () else Except.error GwError.timeout

/-- Modelled from the spec: `linstorcontrol.StatusFromResources` — the
service is started iff at least one node reports the resource in use,
stopped otherwise.  The `path`/resource-group arguments of the Go
function do not enter this aggregation and are dropped. -/
def statusFromResources (ress : List ResourceEntry) : ResourceStatus :=
  ⟨if anyResourcesInUse ress then ServiceState.started else ServiceState.stopped⟩

/-- Modelled from the spec: `PromoterConfig.DeployedResources` — read the
deployed state of the LINSTOR resource a configuration manages. -/
def deployedResources (w : World) (cfg : PromoterConfig) :
    Except GwError (ResourceDefinition × List VolumeDefinition × List ResourceEntry) :=
  match findRes w cfg.RscName with
  | none => Except.error (GwError.backend "deployed resource not found")
  | some d => Except.ok (⟨d.Name⟩, d.VolumeDefinitions, d.Resources)

/-- Non-failing variant used by `List`, which only warns on a fetch
failure and proceeds with zero values. -/
def deployedResourcesOrEmpty (w : World) (cfg : PromoterConfig) :
    ResourceDefinition × List VolumeDefinition × List ResourceEntry :=
  match findRes w cfg.RscName with
  | none => (⟨cfg.RscName⟩, [], [])
  | some d => (⟨d.Name⟩, d.VolumeDefinitions, d.Resources)

/-- Unique, non-negative volume numbers (spec §4.1 step 1). -/
def numbersValid : List Int → Bool
  | [] => true
  | n :: rest => decide (0 ≤ n) && !(rest.any (fun m => m == n)) && numbersValid rest

/-- `common.ClusterPrivateVolume()`: the implicit 64 MiB bookkeeping
volume, number 0 (`clusterPrivateVolumeSizeKiB = 64 * 1024`). -/
def clusterPrivateVolume : VolumeConfig := ⟨0, 64 * 1024⟩

/-- The in-memory mutation block of `DeleteVolume` (both reconcilers,
`nfs.go` lines 294-298 and `nvmeof.go` lines 344-348): splice the volume
at index `i` out of the descriptor's volume list and splice index `i`
out of every fetched per-node placement record's volume list. -/
def deleteVolumeCore (vols : List VolumeConfig) (ress : List ResourceEntry) (i : Nat) :
    List VolumeConfig × List ResourceEntry :=
  (vols.eraseIdx i, ress.map (fun e => { e with Volumes := e.Volumes.eraseIdx i }))

namespace NFS

/-- `nfs.ResourceConfig`: the NFS resource descriptor.  The Go struct's
service IP is a single CIDR value, modelled as a string; the allowed-IPs
list and per-volume export paths are not modelled (no claim mentions
them). -/
structure ResourceConfig where
  Name : String
  ServiceIP : String
  ResourceGroup : String
  Volumes : List VolumeConfig
  Status : Option ResourceStatus
deriving DecidableEq

/-- Modelled from the spec: `ResourceConfig.FillDefaults` — apply the
default resource group when none was given. -/
def FillDefaults (rsc : ResourceConfig) : ResourceConfig :=
  if rsc.ResourceGroup = "" then { rsc with ResourceGroup := "DfltRscGrp" } else rsc

/-- Modelled from the spec: `ResourceConfig.Valid` — name syntax, a
network identity, and unique, positive volume numbers (number 0 is
reserved for the cluster-private volume, which NFS adds only at the
storage layer). -/
def Valid (rsc : ResourceConfig) : Bool :=
  rsc.Name != "" && rsc.ServiceIP != "" &&
    numbersValid (rsc.Volumes.map (·.Number)) &&
    rsc.Volumes.all (fun v => decide (1 ≤ v.Number))

/-- Modelled from the spec: `ResourceConfig.Matches` — field-by-field
comparison of two descriptors, ignoring `Status`. -/
def Matches (a b : ResourceConfig) : Bool :=
  a.Name == b.Name && a.ServiceIP == b.ServiceIP &&
    a.ResourceGroup == b.ResourceGroup && decide (a.Volumes = b.Volumes)

/-- Modelled from the spec: `ResourceConfig.ToPromoter` — deterministic
translation of a descriptor plus deployed placement into an HA
Configuration Object: identifier from the naming template, start agents
in the fixed order storage → network identity → protocol service, the
volume list including the cluster-private volume 0 (which the NFS
descriptor itself does not carry). -/
def ToPromoter (rsc : ResourceConfig) (dep : List ResourceEntry) : PromoterConfig :=
  { ID := nfsId rsc.Name
    RscName := rsc.Name
    Resources := [⟨["ocf:heartbeat:Filesystem", "ocf:heartbeat:IPaddr2",
                    "ocf:heartbeat:nfsserver", "ocf:heartbeat:exportfs"]⟩]
    VolNumbers := 0 :: rsc.Volumes.map (·.Number)
    Nodes := dep.map (·.Node)
    Payl := ⟨rsc.ServiceIP, rsc.ResourceGroup, "", false⟩ }

/-- Modelled from the spec: `nfs.FromPromoter` — inverse of `ToPromoter`:
fails with a decode error when the configuration does not carry the NFS
service-agent shape; reconstructs the volume list from the deployed
volume definitions, excluding the cluster-private volume 0 (it is never
user-visible, and `Create` compares the reconstruction against a
requested descriptor that does not carry volume 0). -/
def FromPromoter (cfg : PromoterConfig) (_rd : ResourceDefinition)
    (vds : List VolumeDefinition) : Except GwError ResourceConfig :=
  match parseTemplated "nfs-" cfg.ID with
  | none => Except.error (GwError.decode "not an nfs promoter config")
  | some name =>
    if cfg.Resources.any (fun r => r.Start.any (fun t => t == "ocf:heartbeat:nfsserver")) then
      Except.ok
        { Name := name
          ServiceIP := cfg.Payl.ServiceIP
          ResourceGroup := cfg.Payl.ResourceGroup
          Volumes := (vds.filter (fun vd => vd.Number != 0)).map (fun vd => ⟨vd.Number, vd.SizeKiB⟩)
          Status := none }
    else Except.error (GwError.decode "config does not contain an nfs server agent")

/-- The signature-collision scan of `NFS.Create` (`nfs.go` lines 71-82):
the first stored configuration under a different identity that starts an
`ocf:heartbeat:nfsserver` agent, if any. -/
def signatureConflict : List StoredConfig → String → Option String
  | [], _ => none
  | s :: ss, selfId =>
    if s.cfg.ID != selfId &&
        s.cfg.Resources.any (fun r => r.Start.any (fun t => t == "ocf:heartbeat:nfsserver")) then
      some s.cfg.ID
    else signatureConflict ss selfId

/-- `NFS.Get` (`nfs.go` lines 33-56). -/
def Get (w : World) (name : String) : Except GwError (Option ResourceConfig) × World :=
  match findConfig w (nfsId name) with
  | none => (Except.ok none, w)
  | some cfg =>
    match deployedResources w cfg with
    | Except.error e => (Except.error e, w)
    | Except.ok (rd, vds, ress) =>
      match FromPromoter cfg rd vds with
      | Except.error e => (Except.error e, w)
      | Except.ok dep =>
        (Except.ok (some { dep with Status := some (statusFromResources ress) }), w)

/-- `NFS.Start` (`nfs.go` lines 151-175): attach the configuration, wait
until some node uses the resource, return the refreshed descriptor. -/
def Start (w : World) (name : String) : Except GwError (Option ResourceConfig) × World :=
  match findConfig w (nfsId name) with
  | none => (Except.ok none, w)
  | some cfg =>
    let w₁ := attachConfig w cfg
    match waitUntilResourceCondition w₁ name anyResourcesInUse with
    | Except.error e => (Except.error e, w₁)
    | Except.ok _ => Get w₁ name

/-- `NFS.Stop` (`nfs.go` lines 177-201): detach, wait until no node uses
the resource, return the refreshed descriptor. -/
def Stop (w : World) (name : String) : Except GwError (Option ResourceConfig) × World :=
  match findConfig w (nfsId name) with
  | none => (Except.ok none, w)
  | some cfg =>
    let w₁ := detachConfig w cfg
    match waitUntilResourceCondition w₁ name noResourcesInUse with
    | Except.error e => (Except.error e, w₁)
    | Except.ok _ => Get w₁ name

/-- `NFS.Create` (`nfs.go` lines 58-149): defaults and validation, the
signature-collision scan over all stored configurations, the idempotence
/ conflict check against an existing configuration under the same
identity, and otherwise the fresh deployment with the cluster-private
volume prepended, followed by `Start`. -/
def Create (w : World) (rsc0 : ResourceConfig) : Except GwError ResourceConfig × World :=
  let rsc := FillDefaults rsc0
  if !Valid rsc then (Except.error (GwError.validation "validation failed"), w)
  else
    match signatureConflict w.configs (nfsId rsc.Name) with
    | some cid =>
      (Except.error (GwError.conflict ("an NFS config with a different ID already exists: " ++ cid)), w)
    | none =>
      match findConfig w (nfsId rsc.Name) with
      | some cfg =>
        match deployedResources w cfg with
        | Except.error e => (Except.error e, w)
        | Except.ok (rd, vds, ress) =>
          match FromPromoter cfg rd vds with
          | Except.error e => (Except.error e, w)
          | Except.ok dep =>
            if !Matches rsc dep then
              (Except.error (GwError.conflict "resource already exists with incompatible config"), w)
            else
              (Except.ok { dep with Status := some (statusFromResources ress) }, w)
      | none =>
        let volumes := clusterPrivateVolume :: rsc.Volumes
        match ensureResource w ⟨rsc.Name, rsc.ResourceGroup, volumes, false⟩ false with
        | (Except.error e, w₁) => (Except.error e, w₁)
        | (Except.ok (_, deployment), w₁) =>
          let cfg := ToPromoter rsc deployment
          let w₂ := ensureConfig w₁ cfg
          match Start w₂ rsc.Name with
          | (Except.error e, w₃) => (Except.error e, w₃)
          | (Except.ok _, w₃) =>
            (Except.ok { rsc with Status := some (statusFromResources deployment) }, w₃)

/-- `NFS.List` (`nfs.go` lines 203-238), named `ListAll` here to avoid
shadowing the list type: reconstruct every stored configuration whose
identifier matches the NFS naming template, skipping (not failing on)
those that do not decode; a failed deployed-state fetch degrades to zero
values. -/
def ListAll (w : World) : List ResourceConfig :=
  w.configs.filterMap (fun s =>
    match parseTemplated "nfs-" s.cfg.ID with
    | none => none
    | some _ =>
      let (rd, vds, ress) := deployedResourcesOrEmpty w s.cfg
      match FromPromoter s.cfg rd vds with
      | Except.error _ => none
      | Except.ok parsed => some { parsed with Status := some (statusFromResources ress) })

/-- `NFS.Delete` (`nfs.go` lines 240-260): remove the HA Configuration
Object, wait until no node uses the resource, then delete the resource
definition, treating its absence as success. -/
def Delete (w : World) (name : String) : Except GwError Unit × World :=
  let w₁ := deleteConfig w (nfsId name)
  match waitUntilResourceCondition w₁ name noResourcesInUse with
  | Except.error e => (Except.error e, w₁)
  | Except.ok _ =>
    match deleteResourceDefinition w₁ name with
    | (Except.error GwError.notFound, w₂) => (Except.ok (), w₂)
    | (Except.error e, w₂) => (Except.error e, w₂)
    | (Except.ok _, w₂) => (Except.ok (), w₂)

/-- `NFS.DeleteVolume` (`nfs.go` lines 262-315): refuse while the service
is started; otherwise delete the volume definition of the first
descriptor volume carrying the given number (absence tolerated), splice
it out of the descriptor and of every fetched placement record
(`deleteVolumeCore`), persist the re-derived configuration, and return
the refreshed descriptor; when no volume matches, fall through to `Get`. -/
def DeleteVolume (w : World) (name : String) (lun : Int) :
    Except GwError (Option ResourceConfig) × World :=
  match findConfig w (nfsId name) with
  | none => (Except.ok none, w)
  | some cfg =>
    match deployedResources w cfg with
    | Except.error e => (Except.error e, w)
    | Except.ok (rd, vds, ress) =>
      match FromPromoter cfg rd vds with
      | Except.error e => (Except.error e, w)
      | Except.ok rscCfg =>
        if (statusFromResources ress).Service = ServiceState.started then
          (Except.error (GwError.conflict "cannot delete volume while service is running"), w)
        else
          match rscCfg.Volumes.findIdx? (fun v => v.Number == lun) with
          | none => Get w name
          | some i =>
            let cont := fun (w₁ : World) =>
              let (vols', ress') := deleteVolumeCore rscCfg.Volumes ress i
              let rscCfg' := { rscCfg with Volumes := vols' }
              let w₂ := ensureConfig w₁ (ToPromoter rscCfg' ress')
              Get w₂ name
            match deleteVolumeDefinition w name lun with
            | (Except.error GwError.notFound, w₁) => cont w₁
            | (Except.error _, w₁) =>
              (Except.error (GwError.backend "failed to delete volume definition"), w₁)
            | (Except.ok _, w₁) => cont w₁

end NFS

namespace NVMeoF

/-- `nvmeof.ResourceConfig`: the NVMe-oF resource descriptor.  The
qualified name is a string (`Nqn`); its `Subsystem()` is the LINSTOR
resource name. -/
structure ResourceConfig where
  NQN : String
  ServiceIP : String
  ResourceGroup : String
  Volumes : List VolumeConfig
  GrossSize : Bool
  Status : Option ResourceStatus
deriving DecidableEq

/-- Modelled from the spec: `ResourceConfig.FillDefaults` — apply the
default resource group when none was given. -/
def FillDefaults (rsc : ResourceConfig) : ResourceConfig :=
  if rsc.ResourceGroup = "" then { rsc with ResourceGroup := "DfltRscGrp" } else rsc

/-- Modelled from the spec: `ResourceConfig.Valid` — name syntax, a
network identity, and unique non-negative volume numbers.  It runs after
`Create` prepended the cluster-private volume, so number 0 is legal
here. -/
def Valid (rsc : ResourceConfig) : Bool :=
  rsc.NQN != "" && rsc.ServiceIP != "" && numbersValid (rsc.Volumes.map (·.Number))

/-- Modelled from the spec: `ResourceConfig.Matches` — field-by-field
comparison of two descriptors, ignoring `Status`. -/
def Matches (a b : ResourceConfig) : Bool :=
  a.NQN == b.NQN && a.ServiceIP == b.ServiceIP && a.ResourceGroup == b.ResourceGroup &&
    decide (a.Volumes = b.Volumes) && a.GrossSize == b.GrossSize

/-- Modelled from the spec: `ResourceConfig.ToPromoter` — deterministic
translation into an HA Configuration Object; the descriptor's volume
list (which already carries the cluster-private volume 0) is declared
verbatim. -/
def ToPromoter (rsc : ResourceConfig) (dep : List ResourceEntry) : PromoterConfig :=
  { ID := nvmeofId (nqnSubsystem rsc.NQN)
    RscName := nqnSubsystem rsc.NQN
    Resources := [⟨["ocf:heartbeat:IPaddr2", "ocf:heartbeat:nvmet-subsystem"]⟩]
    VolNumbers := rsc.Volumes.map (·.Number)
    Nodes := dep.map (·.Node)
    Payl := ⟨rsc.ServiceIP, rsc.ResourceGroup, rsc.NQN, rsc.GrossSize⟩ }

/-- Modelled from the spec: `nvmeof.FromPromoter` — inverse of
`ToPromoter`: fails with a decode error when the configuration does not
carry the NVMe-oF service-agent shape; reconstructs the volume list from
all deployed volume definitions (including the cluster-private volume 0:
`Create` compares this reconstruction against a requested descriptor to
which volume 0 has already been prepended, so filtering it out would make
`Create` never idempotent). -/
def FromPromoter (cfg : PromoterConfig) (_rd : ResourceDefinition)
    (vds : List VolumeDefinition) : Except GwError ResourceConfig :=
  match parseTemplated "nvmeof-" cfg.ID with
  | none => Except.error (GwError.decode "not an nvmeof promoter config")
  | some _ =>
    if cfg.Resources.any (fun r => r.Start.any (fun t => t == "ocf:heartbeat:nvmet-subsystem")) then
      Except.ok
        { NQN := cfg.Payl.NQN
          ServiceIP := cfg.Payl.ServiceIP
          ResourceGroup := cfg.Payl.ResourceGroup
          Volumes := vds.map (fun vd => ⟨vd.Number, vd.SizeKiB⟩)
          GrossSize := cfg.Payl.GrossSize
          Status := none }
    else Except.error (GwError.decode "config does not contain an nvmet subsystem agent")

/-- Ascending insertion of a volume by number. -/
def insertVol (v : VolumeConfig) : List VolumeConfig → List VolumeConfig
  | [] => [v]
  | x :: xs => if v.Number < x.Number then v :: x :: xs else x :: insertVol v xs

/-- `sort.Slice(deployedCfg.Volumes, ...)` of `AddVolume`: sort the
volume list by ascending number. -/
def sortVolumes : List VolumeConfig → List VolumeConfig
  | [] => []
  | x :: xs => insertVol x (sortVolumes xs)

/-- `NVMeoF.Get` (`nvmeof.go` lines 33-56). -/
def Get (w : World) (nqn : String) : Except GwError (Option ResourceConfig) × World :=
  match findConfig w (nvmeofId (nqnSubsystem nqn)) with
  | none => (Except.ok none, w)
  | some cfg =>
    match deployedResources w cfg with
    | Except.error e => (Except.error e, w)
    | Except.ok (rd, vds, ress) =>
      match FromPromoter cfg rd vds with
      | Except.error e => (Except.error e, w)
      | Except.ok dep =>
        (Except.ok (some { dep with Status := some (statusFromResources ress) }), w)

/-- `NVMeoF.Start` (`nvmeof.go` lines 127-151). -/
def Start (w : World) (nqn : String) : Except GwError (Option ResourceConfig) × World :=
  match findConfig w (nvmeofId (nqnSubsystem nqn)) with
  | none => (Except.ok none, w)
  | some cfg =>
    let w₁ := attachConfig w cfg
    match waitUntilResourceCondition w₁ (nqnSubsystem nqn) anyResourcesInUse with
    | Except.error e => (Except.error e, w₁)
    | Except.ok _ => Get w₁ nqn

/-- `NVMeoF.Stop` (`nvmeof.go` lines 153-177). -/
def Stop (w : World) (nqn : String) : Except GwError (Option ResourceConfig) × World :=
  match findConfig w (nvmeofId (nqnSubsystem nqn)) with
  | none => (Except.ok none, w)
  | some cfg =>
    let w₁ := detachConfig w cfg
    match waitUntilResourceCondition w₁ (nqnSubsystem nqn) noResourcesInUse with
    | Except.error e => (Except.error e, w₁)
    | Except.ok _ => Get w₁ nqn

/-- `NVMeoF.Create` (`nvmeof.go` lines 58-125): defaults, then the
cluster-private volume is prepended unconditionally (before validation
and before the existence check — there is no signature-collision scan in
this reconciler), then the idempotence / conflict check against an
existing configuration under the same identity, and otherwise the fresh
deployment followed by `Start`. -/
def Create (w : World) (rsc0 : ResourceConfig) : Except GwError ResourceConfig × World :=
  let rsc1 := FillDefaults rsc0
  let rsc := { rsc1 with Volumes := clusterPrivateVolume :: rsc1.Volumes }
  if !Valid rsc then (Except.error (GwError.validation "validation failed"), w)
  else
    match findConfig w (nvmeofId (nqnSubsystem rsc.NQN)) with
    | some cfg =>
      match deployedResources w cfg with
      | Except.error e => (Except.error e, w)
      | Except.ok (rd, vds, ress) =>
        match FromPromoter cfg rd vds with
        | Except.error e => (Except.error e, w)
        | Except.ok dep =>
          if !Matches rsc dep then
            (Except.error (GwError.conflict "resource already exists with incompatible config"), w)
          else
            (Except.ok { dep with Status := some (statusFromResources ress) }, w)
    | none =>
      match ensureResource w ⟨nqnSubsystem rsc.NQN, rsc.ResourceGroup, rsc.Volumes, rsc.GrossSize⟩ false with
      | (Except.error e, w₁) => (Except.error e, w₁)
      | (Except.ok (_, deployment), w₁) =>
        let cfg := ToPromoter rsc deployment
        let w₂ := ensureConfig w₁ cfg
        match Start w₂ rsc.NQN with
        | (Except.error e, w₃) => (Except.error e, w₃)
        | (Except.ok _, w₃) =>
          (Except.ok { rsc with Status := some (statusFromResources deployment) }, w₃)

/-- `NVMeoF.List` (`nvmeof.go` lines 179-214), named `ListAll` here to
avoid shadowing the list type. -/
def ListAll (w : World) : List ResourceConfig :=
  w.configs.filterMap (fun s =>
    match parseTemplated "nvmeof-" s.cfg.ID with
    | none => none
    | some _ =>
      let (rd, vds, ress) := deployedResourcesOrEmpty w s.cfg
      match FromPromoter s.cfg rd vds with
      | Except.error _ => none
      | Except.ok parsed => some { parsed with Status := some (statusFromResources ress) })

/-- `NVMeoF.Delete` (`nvmeof.go` lines 216-236). -/
def Delete (w : World) (nqn : String) : Except GwError Unit × World :=
  let w₁ := deleteConfig w (nvmeofId (nqnSubsystem nqn))
  match waitUntilResourceCondition w₁ (nqnSubsystem nqn) noResourcesInUse with
  | Except.error e => (Except.error e, w₁)
  | Except.ok _ =>
    match deleteResourceDefinition w₁ (nqnSubsystem nqn) with
    | (Except.error GwError.notFound, w₂) => (Except.ok (), w₂)
    | (Except.error e, w₂) => (Except.error e, w₂)
    | (Except.ok _, w₂) => (Except.ok (), w₂)

/-- `NVMeoF.AddVolume` (`nvmeof.go` lines 238-310): a volume under an
existing number must match in size exactly (no-op), else the call fails;
a genuinely new volume may only be added while the service is not
started, and is reconciled at the storage layer with the allow-existing
flag; in every successful case the configuration is re-persisted. -/
def AddVolume (w : World) (nqn : String) (volCfg : VolumeConfig) :
    Except GwError (Option ResourceConfig) × World :=
  match findConfig w (nvmeofId (nqnSubsystem nqn)) with
  | none => (Except.ok none, w)
  | some cfg =>
    match deployedResources w cfg with
    | Except.error e => (Except.error e, w)
    | Except.ok (rd, vds, ress) =>
      match FromPromoter cfg rd vds with
      | Except.error e => (Except.error e, w)
      | Except.ok deployedCfg =>
        match deployedCfg.Volumes.find? (fun v => v.Number == volCfg.Number) with
        | some v =>
          if v.SizeKiB ≠ volCfg.SizeKiB then
            (Except.error (GwError.conflict "existing volume has differing size"), w)
          else
            let w₁ := ensureConfig w (ToPromoter deployedCfg ress)
            (Except.ok (some { deployedCfg with Status := some (statusFromResources ress) }), w₁)
        | none =>
          if (statusFromResources ress).Service = ServiceState.started then
            (Except.error (GwError.conflict "cannot add volume while service is running"), w)
          else
            let newCfg := { deployedCfg with Volumes := sortVolumes (deployedCfg.Volumes ++ [volCfg]) }
            if !Valid newCfg then (Except.error (GwError.validation "validation failed"), w)
            else
              match ensureResource w ⟨nqnSubsystem newCfg.NQN, newCfg.ResourceGroup, newCfg.Volumes, false⟩ true with
              | (Except.error e, w₁) => (Except.error e, w₁)
              | (Except.ok (_, ress'), w₁) =>
                let w₂ := ensureConfig w₁ (ToPromoter newCfg ress')
                (Except.ok (some { newCfg with Status := some (statusFromResources ress') }), w₂)

/-- `NVMeoF.DeleteVolume` (`nvmeof.go` lines 312-365): refuse while the
service is started; otherwise delete the volume definition of the first
descriptor volume carrying the given namespace id (absence tolerated),
splice it out of the descriptor and of every fetched placement record
(`deleteVolumeCore`), persist the re-derived configuration, and return
the refreshed descriptor; when no volume matches, fall through to `Get`. -/
def DeleteVolume (w : World) (nqn : String) (nsid : Int) :
    Except GwError (Option ResourceConfig) × World :=
  match findConfig w (nvmeofId (nqnSubsystem nqn)) with
  | none => (Except.ok none, w)
  | some cfg =>
    match deployedResources w cfg with
    | Except.error e => (Except.error e, w)
    | Except.ok (rd, vds, ress) =>
      match FromPromoter cfg rd vds with
      | Except.error e => (Except.error e, w)
      | Except.ok rscCfg =>
        if (statusFromResources ress).Service = ServiceState.started then
          (Except.error (GwError.conflict "cannot delete volume while service is running"), w)
        else
          match rscCfg.Volumes.findIdx? (fun v => v.Number == nsid) with
          | none => Get w nqn
          | some i =>
            let cont := fun (w₁ : World) =>
              let (vols', ress') := deleteVolumeCore rscCfg.Volumes ress i
              let rscCfg' := { rscCfg with Volumes := vols' }
              let w₂ := ensureConfig w₁ (ToPromoter rscCfg' ress')
              Get w₂ nqn
            match deleteVolumeDefinition w (nqnSubsystem nqn) nsid with
            | (Except.error GwError.notFound, w₁) => cont w₁
            | (Except.error _, w₁) =>
              (Except.error (GwError.backend "failed to delete volume definition"), w₁)
            | (Except.ok _, w₁) => cont w₁

end NVMeoF

/-! ### Helper lemmas about the collaborator models -/

/-- The requested NVMe-oF descriptor as `Create` effectively uses it:
defaults applied and the cluster-private volume prepended
(`nvmeof.go` lines 62-65, before the existence check). -/
def NVMeoF.Effective (rsc : NVMeoF.ResourceConfig) : NVMeoF.ResourceConfig :=
  { NVMeoF.FillDefaults rsc with
      Volumes := clusterPrivateVolume :: (NVMeoF.FillDefaults rsc).Volumes }

theorem stripPrefixList_append (p s : List Char) : stripPrefixList p (p ++ s) = some s := by
  induction p with
  | nil => rfl
  | cons c cs ih => simp [stripPrefixList, ih]

theorem parseTemplated_append (pre s : String) : parseTemplated pre (pre ++ s) = some s := by
  show (stripPrefixList pre.data (pre ++ s).data).map String.mk = some s
  have h : (pre ++ s).data = pre.data ++ s.data := by
    cases pre; cases s; rfl
  rw [h, stripPrefixList_append]
  cases s; rfl

theorem parseTemplated_nfsId (name : String) : parseTemplated "nfs-" (nfsId name) = some name :=
  parseTemplated_append "nfs-" name

theorem parseTemplated_nvmeofId (s : String) : parseTemplated "nvmeof-" (nvmeofId s) = some s :=
  parseTemplated_append "nvmeof-" s

theorem findConfigL_upsert (l : List StoredConfig) (c : PromoterConfig) :
    findConfigL (upsertConfig l c) c.ID = some c := by
  induction l with
  | nil => simp [upsertConfig, findConfigL, List.find?]
  | cons s ss ih =>
    by_cases h : s.cfg.ID = c.ID
    · simp [upsertConfig, h, findConfigL, List.find?]
    · have hb : (s.cfg.ID == c.ID) = false := by simp [h]
      simp only [upsertConfig, if_neg h, findConfigL, List.find?_cons, hb]
      exact ih

theorem findRes_updateRes (l : List DeployedResource) (name : String) (d d' : DeployedResource)
    (hfind : l.find? (fun x => x.Name == name) = some d) (hd' : d'.Name = name) :
    (updateRes l name d').find? (fun x => x.Name == name) = some d' := by
  induction l with
  | nil => simp [List.find?] at hfind
  | cons a l ih =>
    by_cases h : a.Name = name
    · have hb : (d'.Name == name) = true := by simp [hd']
      simp [updateRes, h, List.find?, hb]
    · have hb : (a.Name == name) = false := by simp [h]
      simp only [List.find?_cons, hb, cond_false] at hfind
      simp only [updateRes, List.map_cons, if_neg h, List.find?_cons, hb, cond_false]
      exact ih hfind

@[simp] theorem NVMeoF.FillDefaults_NQN (rsc : NVMeoF.ResourceConfig) :
    (NVMeoF.FillDefaults rsc).NQN = rsc.NQN := by
  unfold NVMeoF.FillDefaults; split <;> rfl

/-! ### C2 — Create is idempotent -/

/-- C2: for every descriptor whose identity already carries an HA
Configuration Object whose reconstructed descriptor matches the
effective requested descriptor field-by-field (ignoring Status), `Create`
returns the existing descriptor with freshly computed status and leaves
the world — configurations, storage state and mutation log — untouched.
For NVMe-oF the effective requested descriptor is the one `Create`
compares: defaults applied and the cluster-private volume prepended. -/
theorem create_idempotent :
    (∀ (w : World) (rsc : NFS.ResourceConfig) (cfg : PromoterConfig)
       (rd : ResourceDefinition) (vds : List VolumeDefinition) (ress : List ResourceEntry)
       (dep : NFS.ResourceConfig),
       NFS.Valid (NFS.FillDefaults rsc) = true →
       NFS.signatureConflict w.configs (nfsId (NFS.FillDefaults rsc).Name) = none →
       findConfig w (nfsId (NFS.FillDefaults rsc).Name) = some cfg →
       deployedResources w cfg = Except.ok (rd, vds, ress) →
       NFS.FromPromoter cfg rd vds = Except.ok dep →
       NFS.Matches (NFS.FillDefaults rsc) dep = true →
       NFS.Create w rsc = (Except.ok { dep with Status := some (statusFromResources ress) }, w)) ∧
    (∀ (w : World) (rsc : NVMeoF.ResourceConfig) (cfg : PromoterConfig)
       (rd : ResourceDefinition) (vds : List VolumeDefinition) (ress : List ResourceEntry)
       (dep : NVMeoF.ResourceConfig),
       NVMeoF.Valid (NVMeoF.Effective rsc) = true →
       findConfig w (nvmeofId (nqnSubsystem rsc.NQN)) = some cfg →
       deployedResources w cfg = Except.ok (rd, vds, ress) →
       NVMeoF.FromPromoter cfg rd vds = Except.ok dep →
       NVMeoF.Matches (NVMeoF.Effective rsc) dep = true →
       NVMeoF.Create w rsc = (Except.ok { dep with Status := some (statusFromResources ress) }, w)) := by
  constructor
  · intro w rsc cfg rd vds ress dep hv hs hf hd hfp hm
    simp [NFS.Create, hv, hs, hf, hd, hfp, hm]
  · intro w rsc cfg rd vds ress dep hv hf hd hfp hm
    simp [NVMeoF.Effective] at hv hm
    simp [NVMeoF.Create, hv, hf, hd, hfp, hm]

def cfgC2nfs : PromoterConfig :=
  { ID := "nfs-ex1", RscName := "ex1"
    Resources := [⟨["ocf:heartbeat:Filesystem", "ocf:heartbeat:IPaddr2",
                    "ocf:heartbeat:nfsserver", "ocf:heartbeat:exportfs"]⟩]
    VolNumbers := [0, 1], Nodes := ["alpha"]
    Payl := ⟨"192.168.1.5/24", "rgA", "", false⟩ }

def wC2nfs : World :=
  { configs := [⟨cfgC2nfs, true⟩]
    linstor := [{ Name := "ex1", ResourceGroup := "rgA"
                  VolumeDefinitions := [⟨0, 65536⟩, ⟨1, 2048⟩]
                  Resources := [⟨"alpha", true, [0, 1]⟩] }]
    defaultPlacement := [], log := [] }

def rscC2nfs : NFS.ResourceConfig :=
  { Name := "ex1", ServiceIP := "192.168.1.5/24", ResourceGroup := "rgA"
    Volumes := [⟨1, 2048⟩], Status := none }

def depC2nfs : NFS.ResourceConfig :=
  { Name := "ex1", ServiceIP := "192.168.1.5/24", ResourceGroup := "rgA"
    Volumes := [⟨1, 2048⟩], Status := none }

def cfgC2nv : PromoterConfig :=
  { ID := "nvmeof-sub1", RscName := "sub1"
    Resources := [⟨["ocf:heartbeat:IPaddr2", "ocf:heartbeat:nvmet-subsystem"]⟩]
    VolNumbers := [0, 1], Nodes := ["beta"]
    Payl := ⟨"10.1.1.1/24", "rgB", "nqn.2021:sub1", false⟩ }

def wC2nv : World :=
  { configs := [⟨cfgC2nv, false⟩]
    linstor := [{ Name := "sub1", ResourceGroup := "rgB"
                  VolumeDefinitions := [⟨0, 65536⟩, ⟨1, 4096⟩]
                  Resources := [⟨"beta", false, [0, 1]⟩] }]
    defaultPlacement := [], log := [] }

def rscC2nv : NVMeoF.ResourceConfig :=
  { NQN := "nqn.2021:sub1", ServiceIP := "10.1.1.1/24", ResourceGroup := "rgB"
    Volumes := [⟨1, 4096⟩], GrossSize := false, Status := none }

def depC2nv : NVMeoF.ResourceConfig :=
  { NQN := "nqn.2021:sub1", ServiceIP := "10.1.1.1/24", ResourceGroup := "rgB"
    Volumes := [⟨0, 65536⟩, ⟨1, 4096⟩], GrossSize := false, Status := none }

/-- C2 witness: the idempotent branch taken on concrete worlds, for both
reconcilers. -/
theorem create_idempotent_witness :
    NFS.Create wC2nfs rscC2nfs =
      (Except.ok { depC2nfs with Status := some (statusFromResources [⟨"alpha", true, [0, 1]⟩]) }, wC2nfs) ∧
    NVMeoF.Create wC2nv rscC2nv =
      (Except.ok { depC2nv with Status := some (statusFromResources [⟨"beta", false, [0, 1]⟩]) }, wC2nv) :=
  ⟨create_idempotent.1 wC2nfs rscC2nfs cfgC2nfs ⟨"ex1"⟩ [⟨0, 65536⟩, ⟨1, 2048⟩]
      [⟨"alpha", true, [0, 1]⟩] depC2nfs (by decide) (by decide) (by decide) (by decide)
      (by decide) (by decide),
   create_idempotent.2 wC2nv rscC2nv cfgC2nv ⟨"sub1"⟩ [⟨0, 65536⟩, ⟨1, 4096⟩]
      [⟨"beta", false, [0, 1]⟩] depC2nv (by decide) (by decide) (by decide) (by decide)
      (by decide)⟩

/-! ### C3 — Create fails with a conflict and mutates nothing when the
existing deployment differs -/

/-- C3: when an HA Configuration Object exists under the requested
identity but its reconstructed descriptor does not match the effective
requested descriptor, `Create` fails with the ConflictError
"resource already exists with incompatible config" and leaves the world
— no ensure-resource call, no config-store write — untouched, for both
reconcilers. -/
theorem create_conflict_on_mismatch :
    (∀ (w : World) (rsc : NFS.ResourceConfig) (cfg : PromoterConfig)
       (rd : ResourceDefinition) (vds : List VolumeDefinition) (ress : List ResourceEntry)
       (dep : NFS.ResourceConfig),
       NFS.Valid (NFS.FillDefaults rsc) = true →
       NFS.signatureConflict w.configs (nfsId (NFS.FillDefaults rsc).Name) = none →
       findConfig w (nfsId (NFS.FillDefaults rsc).Name) = some cfg →
       deployedResources w cfg = Except.ok (rd, vds, ress) →
       NFS.FromPromoter cfg rd vds = Except.ok dep →
       NFS.Matches (NFS.FillDefaults rsc) dep = false →
       NFS.Create w rsc =
         (Except.error (GwError.conflict "resource already exists with incompatible config"), w)) ∧
    (∀ (w : World) (rsc : NVMeoF.ResourceConfig) (cfg : PromoterConfig)
       (rd : ResourceDefinition) (vds : List VolumeDefinition) (ress : List ResourceEntry)
       (dep : NVMeoF.ResourceConfig),
       NVMeoF.Valid (NVMeoF.Effective rsc) = true →
       findConfig w (nvmeofId (nqnSubsystem rsc.NQN)) = some cfg →
       deployedResources w cfg = Except.ok (rd, vds, ress) →
       NVMeoF.FromPromoter cfg rd vds = Except.ok dep →
       NVMeoF.Matches (NVMeoF.Effective rsc) dep = false →
       NVMeoF.Create w rsc =
         (Except.error (GwError.conflict "resource already exists with incompatible config"), w)) := by
  constructor
  · intro w rsc cfg rd vds ress dep hv hs hf hd hfp hm
    simp [NFS.Create, hv, hs, hf, hd, hfp, hm]
  · intro w rsc cfg rd vds ress dep hv hf hd hfp hm
    simp [NVMeoF.Effective] at hv hm
    simp [NVMeoF.Create, hv, hf, hd, hfp, hm]

def rscC3nfs : NFS.ResourceConfig :=
  { Name := "ex1", ServiceIP := "192.168.1.5/24", ResourceGroup := "rgA"
    Volumes := [⟨1, 9999⟩], Status := none }

def rscC3nv : NVMeoF.ResourceConfig :=
  { NQN := "nqn.2021:sub1", ServiceIP := "10.1.1.1/24", ResourceGroup := "rgB"
    Volumes := [⟨1, 9999⟩], GrossSize := false, Status := none }

/-- C3 witness: a same-identity request with a different volume size is
rejected without mutation, on concrete worlds, for both reconcilers. -/
theorem create_conflict_on_mismatch_witness :
    NFS.Create wC2nfs rscC3nfs =
      (Except.error (GwError.conflict "resource already exists with incompatible config"), wC2nfs) ∧
    NVMeoF.Create wC2nv rscC3nv =
      (Except.error (GwError.conflict "resource already exists with incompatible config"), wC2nv) :=
  ⟨create_conflict_on_mismatch.1 wC2nfs rscC3nfs cfgC2nfs ⟨"ex1"⟩ [⟨0, 65536⟩, ⟨1, 2048⟩]
      [⟨"alpha", true, [0, 1]⟩] depC2nfs (by decide) (by decide) (by decide) (by decide)
      (by decide) (by decide),
   create_conflict_on_mismatch.2 wC2nv rscC3nv cfgC2nv ⟨"sub1"⟩ [⟨0, 65536⟩, ⟨1, 4096⟩]
      [⟨"beta", false, [0, 1]⟩] depC2nv (by decide) (by decide) (by decide) (by decide)
      (by decide)⟩

/-! ### C1 — the service-agent signature scan in Create -/

/-- C1 (amended): only the NFS reconciler scans all existing HA
Configuration Objects before creating anything.  Whenever the scan finds
a configuration starting an `ocf:heartbeat:nfsserver` agent under an
identity different from the requested one, `NFS.Create` fails with the
ConflictError naming that identity and leaves the world untouched; and
the scan reports exactly such configurations (a different identity
carrying the NFS service-agent signature).  The NVMe-oF reconciler has
no such scan (see the counterexample). -/
theorem create_signature_scan :
    (∀ (w : World) (rsc : NFS.ResourceConfig) (cid : String),
       NFS.Valid (NFS.FillDefaults rsc) = true →
       NFS.signatureConflict w.configs (nfsId (NFS.FillDefaults rsc).Name) = some cid →
       NFS.Create w rsc =
         (Except.error (GwError.conflict ("an NFS config with a different ID already exists: " ++ cid)), w)) ∧
    (∀ (l : List StoredConfig) (selfId cid : String),
       NFS.signatureConflict l selfId = some cid →
       cid ≠ selfId ∧ ∃ s ∈ l, s.cfg.ID = cid ∧
         s.cfg.Resources.any (fun r => r.Start.any (fun t => t == "ocf:heartbeat:nfsserver")) = true) := by
  constructor
  · intro w rsc cid hv hs
    simp [NFS.Create, hv, hs]
  · intro l selfId cid h
    induction l with
    | nil => simp [NFS.signatureConflict] at h
    | cons s ss ih =>
      by_cases hc : (s.cfg.ID != selfId &&
          s.cfg.Resources.any (fun r => r.Start.any (fun t => t == "ocf:heartbeat:nfsserver"))) = true
      · rw [NFS.signatureConflict, if_pos hc] at h
        obtain ⟨hne, hag⟩ := Bool.and_eq_true_iff.mp hc
        cases h
        exact ⟨bne_iff_ne.mp hne, s, List.mem_cons_self s ss, rfl, hag⟩
      · rw [NFS.signatureConflict, if_neg hc] at h
        obtain ⟨hne, hmem⟩ := ih h
        obtain ⟨t, ht, hts⟩ := hmem
        exact ⟨hne, t, List.mem_cons_of_mem s ht, hts⟩

def wC1nfs : World :=
  { configs := [⟨{ ID := "nfs-other", RscName := "other"
                   Resources := [⟨["ocf:heartbeat:Filesystem", "ocf:heartbeat:IPaddr2",
                                   "ocf:heartbeat:nfsserver", "ocf:heartbeat:exportfs"]⟩]
                   VolNumbers := [0, 1], Nodes := ["alpha"]
                   Payl := ⟨"192.168.1.9/24", "rgA", "", false⟩ }, true⟩]
    linstor := [], defaultPlacement := [], log := [] }

def rscC1nfs : NFS.ResourceConfig :=
  { Name := "mine", ServiceIP := "192.168.1.5/24", ResourceGroup := "rgA"
    Volumes := [⟨1, 2048⟩], Status := none }

/-- C1 witness: the NFS scan rejects a request while an NFS-signature
configuration exists under a different identity, on a concrete world. -/
theorem create_signature_scan_witness :
    NFS.Create wC1nfs rscC1nfs =
      (Except.error (GwError.conflict "an NFS config with a different ID already exists: nfs-other"), wC1nfs) :=
  create_signature_scan.1 wC1nfs rscC1nfs "nfs-other" (by decide) (by decide)

def wC1nv : World :=
  { configs := [⟨{ ID := "nvmeof-other", RscName := "other"
                   Resources := [⟨["ocf:heartbeat:IPaddr2", "ocf:heartbeat:nvmet-subsystem"]⟩]
                   VolNumbers := [0, 1], Nodes := ["beta"]
                   Payl := ⟨"10.0.0.2/24", "rgB", "nqn.x:other", false⟩ }, true⟩]
    linstor := []
    defaultPlacement := [⟨"beta", true, []⟩]
    log := [] }

def rscC1nv : NVMeoF.ResourceConfig :=
  { NQN := "nqn.2021:abc", ServiceIP := "10.0.0.1/24", ResourceGroup := "rgB"
    Volumes := [⟨1, 1024⟩], GrossSize := false, Status := none }

/-- C1 counterexample: the NVMe-oF reconciler performs no signature scan.
On a world holding an NVMe-oF-signature configuration under a different
identity, `NVMeoF.Create` does not fail with a ConflictError: it succeeds
and mutates state (an ensure-resource call, a config persist and an
attach are issued), refuting the claim for the NVMe-oF reconciler. -/
theorem create_signature_scan_nvmeof_counterexample :
    (NVMeoF.Create wC1nv rscC1nv).1 =
      Except.ok { NQN := "nqn.2021:abc", ServiceIP := "10.0.0.1/24", ResourceGroup := "rgB"
                  Volumes := [⟨0, 65536⟩, ⟨1, 1024⟩], GrossSize := false
                  Status := some ⟨ServiceState.started⟩ } ∧
    (NVMeoF.Create wC1nv rscC1nv).2.log =
      [Event.ensureResource "abc" [0, 1], Event.ensureConfig "nvmeof-abc",
       Event.attachConfig "nvmeof-abc"] := by
  constructor
  · decide
  · decide

/-! ### Shared lemmas: translator round trips and reads after a config
persist -/

theorem nfs_FromPromoter_ToPromoter (rsc : NFS.ResourceConfig) (dep : List ResourceEntry)
    (rd : ResourceDefinition) (vds : List VolumeDefinition) :
    NFS.FromPromoter (NFS.ToPromoter rsc dep) rd vds =
      Except.ok
        { Name := rsc.Name, ServiceIP := rsc.ServiceIP, ResourceGroup := rsc.ResourceGroup
          Volumes := (vds.filter (fun vd => vd.Number != 0)).map (fun vd => ⟨vd.Number, vd.SizeKiB⟩)
          Status := none } := by
  simp [NFS.FromPromoter, NFS.ToPromoter, parseTemplated_nfsId]

theorem nv_FromPromoter_ToPromoter (rsc : NVMeoF.ResourceConfig) (dep : List ResourceEntry)
    (rd : ResourceDefinition) (vds : List VolumeDefinition) :
    NVMeoF.FromPromoter (NVMeoF.ToPromoter rsc dep) rd vds =
      Except.ok
        { NQN := rsc.NQN, ServiceIP := rsc.ServiceIP, ResourceGroup := rsc.ResourceGroup
          Volumes := vds.map (fun vd => ⟨vd.Number, vd.SizeKiB⟩)
          GrossSize := rsc.GrossSize, Status := none } := by
  simp [NVMeoF.FromPromoter, NVMeoF.ToPromoter, parseTemplated_nvmeofId]

theorem findConfig_ensureConfig (w : World) (c : PromoterConfig) (id : String) (h : c.ID = id) :
    findConfig (ensureConfig w c) id = some c := by
  subst h
  exact findConfigL_upsert w.configs c

theorem get_ensure_nv (w : World) (c : PromoterConfig) (nqn : String) (d : DeployedResource)
    (dep : NVMeoF.ResourceConfig)
    (hid : c.ID = nvmeofId (nqnSubsystem nqn))
    (hres : findRes w c.RscName = some d)
    (hfp : NVMeoF.FromPromoter c ⟨d.Name⟩ d.VolumeDefinitions = Except.ok dep) :
    NVMeoF.Get (ensureConfig w c) nqn =
      (Except.ok (some { dep with Status := some (statusFromResources d.Resources) }), ensureConfig w c) := by
  have h1 : findConfig (ensureConfig w c) (nvmeofId (nqnSubsystem nqn)) = some c :=
    findConfig_ensureConfig w c _ hid
  have h2 : findRes (ensureConfig w c) c.RscName = some d := hres
  simp [NVMeoF.Get, h1, deployedResources, h2, hfp]

theorem get_ensure_nfs (w : World) (c : PromoterConfig) (name : String) (d : DeployedResource)
    (dep : NFS.ResourceConfig)
    (hid : c.ID = nfsId name)
    (hres : findRes w c.RscName = some d)
    (hfp : NFS.FromPromoter c ⟨d.Name⟩ d.VolumeDefinitions = Except.ok dep) :
    NFS.Get (ensureConfig w c) name =
      (Except.ok (some { dep with Status := some (statusFromResources d.Resources) }), ensureConfig w c) := by
  have h1 : findConfig (ensureConfig w c) (nfsId name) = some c :=
    findConfig_ensureConfig w c _ hid
  have h2 : findRes (ensureConfig w c) c.RscName = some d := hres
  simp [NFS.Get, h1, deployedResources, h2, hfp]

/-! ### C5 — the running-service mutation guard -/

/-- C5: `NVMeoF.AddVolume` (for a volume number not already deployed),
`NVMeoF.DeleteVolume` and `NFS.DeleteVolume` all fail with a
ConflictError and leave the world untouched — no storage-layer call, no
config re-persist — when the aggregated service state is started (some
node in use), and the same calls succeed when it is stopped. -/
theorem mutation_guard :
    (∀ (w : World) (nqn : String) (volCfg : VolumeConfig) (cfg : PromoterConfig)
       (rd : ResourceDefinition) (vds : List VolumeDefinition) (ress : List ResourceEntry)
       (dep : NVMeoF.ResourceConfig),
       findConfig w (nvmeofId (nqnSubsystem nqn)) = some cfg →
       deployedResources w cfg = Except.ok (rd, vds, ress) →
       NVMeoF.FromPromoter cfg rd vds = Except.ok dep →
       dep.Volumes.find? (fun v => v.Number == volCfg.Number) = none →
       anyResourcesInUse ress = true →
       NVMeoF.AddVolume w nqn volCfg =
         (Except.error (GwError.conflict "cannot add volume while service is running"), w)) ∧
    (∀ (w : World) (nqn : String) (nsid : Int) (cfg : PromoterConfig)
       (rd : ResourceDefinition) (vds : List VolumeDefinition) (ress : List ResourceEntry)
       (rscCfg : NVMeoF.ResourceConfig),
       findConfig w (nvmeofId (nqnSubsystem nqn)) = some cfg →
       deployedResources w cfg = Except.ok (rd, vds, ress) →
       NVMeoF.FromPromoter cfg rd vds = Except.ok rscCfg →
       anyResourcesInUse ress = true →
       NVMeoF.DeleteVolume w nqn nsid =
         (Except.error (GwError.conflict "cannot delete volume while service is running"), w)) ∧
    (∀ (w : World) (name : String) (lun : Int) (cfg : PromoterConfig)
       (rd : ResourceDefinition) (vds : List VolumeDefinition) (ress : List ResourceEntry)
       (rscCfg : NFS.ResourceConfig),
       findConfig w (nfsId name) = some cfg →
       deployedResources w cfg = Except.ok (rd, vds, ress) →
       NFS.FromPromoter cfg rd vds = Except.ok rscCfg →
       anyResourcesInUse ress = true →
       NFS.DeleteVolume w name lun =
         (Except.error (GwError.conflict "cannot delete volume while service is running"), w)) ∧
    (∀ (w : World) (nqn : String) (volCfg : VolumeConfig) (cfg : PromoterConfig)
       (rd : ResourceDefinition) (vds : List VolumeDefinition) (ress : List ResourceEntry)
       (dep : NVMeoF.ResourceConfig) (d : DeployedResource),
       findConfig w (nvmeofId (nqnSubsystem nqn)) = some cfg →
       deployedResources w cfg = Except.ok (rd, vds, ress) →
       NVMeoF.FromPromoter cfg rd vds = Except.ok dep →
       dep.Volumes.find? (fun v => v.Number == volCfg.Number) = none →
       anyResourcesInUse ress = false →
       findRes w (nqnSubsystem dep.NQN) = some d →
       NVMeoF.Valid { dep with Volumes := NVMeoF.sortVolumes (dep.Volumes ++ [volCfg]) } = true →
       ∃ r w', NVMeoF.AddVolume w nqn volCfg = (Except.ok (some r), w')) ∧
    (∀ (w w₁ : World) (nqn : String) (nsid : Int) (cfg : PromoterConfig)
       (rd : ResourceDefinition) (vds : List VolumeDefinition) (ress : List ResourceEntry)
       (rscCfg : NVMeoF.ResourceConfig) (i : Nat) (d' : DeployedResource),
       findConfig w (nvmeofId (nqnSubsystem nqn)) = some cfg →
       deployedResources w cfg = Except.ok (rd, vds, ress) →
       NVMeoF.FromPromoter cfg rd vds = Except.ok rscCfg →
       anyResourcesInUse ress = false →
       rscCfg.Volumes.findIdx? (fun v => v.Number == nsid) = some i →
       deleteVolumeDefinition w (nqnSubsystem nqn) nsid = (Except.ok (), w₁) →
       nqnSubsystem rscCfg.NQN = nqnSubsystem nqn →
       findRes w₁ (nqnSubsystem nqn) = some d' →
       ∃ res w', NVMeoF.DeleteVolume w nqn nsid = (Except.ok res, w')) ∧
    (∀ (w w₁ : World) (name : String) (lun : Int) (cfg : PromoterConfig)
       (rd : ResourceDefinition) (vds : List VolumeDefinition) (ress : List ResourceEntry)
       (rscCfg : NFS.ResourceConfig) (i : Nat) (d' : DeployedResource),
       findConfig w (nfsId name) = some cfg →
       deployedResources w cfg = Except.ok (rd, vds, ress) →
       NFS.FromPromoter cfg rd vds = Except.ok rscCfg →
       anyResourcesInUse ress = false →
       rscCfg.Volumes.findIdx? (fun v => v.Number == lun) = some i →
       deleteVolumeDefinition w name lun = (Except.ok (), w₁) →
       rscCfg.Name = name →
       findRes w₁ name = some d' →
       ∃ res w', NFS.DeleteVolume w name lun = (Except.ok res, w')) := by
  refine ⟨?_, ?_, ?_, ?_, ?_, ?_⟩
  · intro w nqn volCfg cfg rd vds ress dep hfind hd hfp hnone hstart
    simp [NVMeoF.AddVolume, hfind, hd, hfp, hnone, statusFromResources, hstart]
  · intro w nqn nsid cfg rd vds ress rscCfg hfind hd hfp hstart
    simp [NVMeoF.DeleteVolume, hfind, hd, hfp, statusFromResources, hstart]
  · intro w name lun cfg rd vds ress rscCfg hfind hd hfp hstart
    simp [NFS.DeleteVolume, hfind, hd, hfp, statusFromResources, hstart]
  · intro w nqn volCfg cfg rd vds ress dep d hfind hd hfp hnone hstop hres hvalid
    simp [NVMeoF.AddVolume, hfind, hd, hfp, hnone, statusFromResources, hstop, hvalid,
          ensureResource, hres, ensureConfig]
  · intro w w₁ nqn nsid cfg rd vds ress rscCfg i d' hfind hd hfp hstop hidx hdel hnqn hres1
    have hid : (NVMeoF.ToPromoter { rscCfg with Volumes := rscCfg.Volumes.eraseIdx i }
        (ress.map (fun e => { e with Volumes := e.Volumes.eraseIdx i }))).ID =
        nvmeofId (nqnSubsystem nqn) := by
      simp [NVMeoF.ToPromoter, hnqn]
    have hres' : findRes w₁ (NVMeoF.ToPromoter { rscCfg with Volumes := rscCfg.Volumes.eraseIdx i }
        (ress.map (fun e => { e with Volumes := e.Volumes.eraseIdx i }))).RscName = some d' := by
      simp [NVMeoF.ToPromoter, hnqn, hres1]
    have hget := get_ensure_nv w₁ _ nqn d' _ hid hres'
      (nv_FromPromoter_ToPromoter _ _ ⟨d'.Name⟩ d'.VolumeDefinitions)
    simp [NVMeoF.DeleteVolume, hfind, hd, hfp, statusFromResources, hstop, hidx, hdel,
          deleteVolumeCore, hget]
  · intro w w₁ name lun cfg rd vds ress rscCfg i d' hfind hd hfp hstop hidx hdel hname hres1
    have hid : (NFS.ToPromoter { rscCfg with Volumes := rscCfg.Volumes.eraseIdx i }
        (ress.map (fun e => { e with Volumes := e.Volumes.eraseIdx i }))).ID = nfsId name := by
      simp [NFS.ToPromoter, hname]
    have hres' : findRes w₁ (NFS.ToPromoter { rscCfg with Volumes := rscCfg.Volumes.eraseIdx i }
        (ress.map (fun e => { e with Volumes := e.Volumes.eraseIdx i }))).RscName = some d' := by
      simp [NFS.ToPromoter, hname, hres1]
    have hget := get_ensure_nfs w₁ _ name d' _ hid hres'
      (nfs_FromPromoter_ToPromoter _ _ ⟨d'.Name⟩ d'.VolumeDefinitions)
    simp [NFS.DeleteVolume, hfind, hd, hfp, statusFromResources, hstop, hidx, hdel,
          deleteVolumeCore, hget]

def cfgC5nv : PromoterConfig :=
  { ID := "nvmeof-sub1", RscName := "sub1"
    Resources := [⟨["ocf:heartbeat:IPaddr2", "ocf:heartbeat:nvmet-subsystem"]⟩]
    VolNumbers := [0, 1], Nodes := ["beta"]
    Payl := ⟨"10.1.1.1/24", "rgB", "nqn.2021:sub1", false⟩ }

def wC5nvOn : World :=
  { configs := [⟨cfgC5nv, true⟩]
    linstor := [{ Name := "sub1", ResourceGroup := "rgB"
                  VolumeDefinitions := [⟨0, 65536⟩, ⟨1, 4096⟩]
                  Resources := [⟨"beta", true, [0, 1]⟩] }]
    defaultPlacement := [], log := [] }

def wC5nvOff : World :=
  { configs := [⟨cfgC5nv, false⟩]
    linstor := [{ Name := "sub1", ResourceGroup := "rgB"
                  VolumeDefinitions := [⟨0, 65536⟩, ⟨1, 4096⟩]
                  Resources := [⟨"beta", false, [0, 1]⟩] }]
    defaultPlacement := [], log := [] }

def depC5nv : NVMeoF.ResourceConfig :=
  { NQN := "nqn.2021:sub1", ServiceIP := "10.1.1.1/24", ResourceGroup := "rgB"
    Volumes := [⟨0, 65536⟩, ⟨1, 4096⟩], GrossSize := false, Status := none }

def w1C5nv : World :=
  { configs := [⟨cfgC5nv, false⟩]
    linstor := [{ Name := "sub1", ResourceGroup := "rgB"
                  VolumeDefinitions := [⟨0, 65536⟩]
                  Resources := [⟨"beta", false, [0]⟩] }]
    defaultPlacement := [], log := [Event.deleteVolumeDefinition "sub1" 1] }

def cfgC5nfs : PromoterConfig :=
  { ID := "nfs-ex1", RscName := "ex1"
    Resources := [⟨["ocf:heartbeat:Filesystem", "ocf:heartbeat:IPaddr2",
                    "ocf:heartbeat:nfsserver", "ocf:heartbeat:exportfs"]⟩]
    VolNumbers := [0, 1], Nodes := ["alpha"]
    Payl := ⟨"192.168.1.5/24", "rgA", "", false⟩ }

def wC5nfsOn : World :=
  { configs := [⟨cfgC5nfs, true⟩]
    linstor := [{ Name := "ex1", ResourceGroup := "rgA"
                  VolumeDefinitions := [⟨0, 65536⟩, ⟨1, 2048⟩]
                  Resources := [⟨"alpha", true, [0, 1]⟩] }]
    defaultPlacement := [], log := [] }

def wC5nfsOff : World :=
  { configs := [⟨cfgC5nfs, false⟩]
    linstor := [{ Name := "ex1", ResourceGroup := "rgA"
                  VolumeDefinitions := [⟨0, 65536⟩, ⟨1, 2048⟩]
                  Resources := [⟨"alpha", false, [0, 1]⟩] }]
    defaultPlacement := [], log := [] }

def rscCfgC5nfs : NFS.ResourceConfig :=
  { Name := "ex1", ServiceIP := "192.168.1.5/24", ResourceGroup := "rgA"
    Volumes := [⟨1, 2048⟩], Status := none }

def w1C5nfs : World :=
  { configs := [⟨cfgC5nfs, false⟩]
    linstor := [{ Name := "ex1", ResourceGroup := "rgA"
                  VolumeDefinitions := [⟨0, 65536⟩]
                  Resources := [⟨"alpha", false, [0]⟩] }]
    defaultPlacement := [], log := [Event.deleteVolumeDefinition "ex1" 1] }

/-- C5 witness: on concrete worlds, all three mutators are rejected with
a ConflictError while a node is in use, and all three succeed once no
node is in use. -/
theorem mutation_guard_witness :
    NVMeoF.AddVolume wC5nvOn "nqn.2021:sub1" ⟨2, 1000⟩ =
      (Except.error (GwError.conflict "cannot add volume while service is running"), wC5nvOn) ∧
    NVMeoF.DeleteVolume wC5nvOn "nqn.2021:sub1" 1 =
      (Except.error (GwError.conflict "cannot delete volume while service is running"), wC5nvOn) ∧
    NFS.DeleteVolume wC5nfsOn "ex1" 1 =
      (Except.error (GwError.conflict "cannot delete volume while service is running"), wC5nfsOn) ∧
    (∃ r w', NVMeoF.AddVolume wC5nvOff "nqn.2021:sub1" ⟨2, 1000⟩ = (Except.ok (some r), w')) ∧
    (∃ res w', NVMeoF.DeleteVolume wC5nvOff "nqn.2021:sub1" 1 = (Except.ok res, w')) ∧
    (∃ res w', NFS.DeleteVolume wC5nfsOff "ex1" 1 = (Except.ok res, w')) :=
  ⟨mutation_guard.1 wC5nvOn "nqn.2021:sub1" ⟨2, 1000⟩ cfgC5nv ⟨"sub1"⟩
      [⟨0, 65536⟩, ⟨1, 4096⟩] [⟨"beta", true, [0, 1]⟩] depC5nv
      (by decide) (by decide) (by decide) (by decide) (by decide),
   mutation_guard.2.1 wC5nvOn "nqn.2021:sub1" 1 cfgC5nv ⟨"sub1"⟩
      [⟨0, 65536⟩, ⟨1, 4096⟩] [⟨"beta", true, [0, 1]⟩] depC5nv
      (by decide) (by decide) (by decide) (by decide),
   mutation_guard.2.2.1 wC5nfsOn "ex1" 1 cfgC5nfs ⟨"ex1"⟩
      [⟨0, 65536⟩, ⟨1, 2048⟩] [⟨"alpha", true, [0, 1]⟩] rscCfgC5nfs
      (by decide) (by decide) (by decide) (by decide),
   mutation_guard.2.2.2.1 wC5nvOff "nqn.2021:sub1" ⟨2, 1000⟩ cfgC5nv ⟨"sub1"⟩
      [⟨0, 65536⟩, ⟨1, 4096⟩] [⟨"beta", false, [0, 1]⟩] depC5nv
      { Name := "sub1", ResourceGroup := "rgB"
        VolumeDefinitions := [⟨0, 65536⟩, ⟨1, 4096⟩]
        Resources := [⟨"beta", false, [0, 1]⟩] }
      (by decide) (by decide) (by decide) (by decide) (by decide) (by decide) (by decide),
   mutation_guard.2.2.2.2.1 wC5nvOff w1C5nv "nqn.2021:sub1" 1 cfgC5nv ⟨"sub1"⟩
      [⟨0, 65536⟩, ⟨1, 4096⟩] [⟨"beta", false, [0, 1]⟩] depC5nv 1
      { Name := "sub1", ResourceGroup := "rgB"
        VolumeDefinitions := [⟨0, 65536⟩]
        Resources := [⟨"beta", false, [0]⟩] }
      (by decide) (by decide) (by decide) (by decide) (by decide) (by decide) (by decide) (by decide),
   mutation_guard.2.2.2.2.2 wC5nfsOff w1C5nfs "ex1" 1 cfgC5nfs ⟨"ex1"⟩
      [⟨0, 65536⟩, ⟨1, 2048⟩] [⟨"alpha", false, [0, 1]⟩] rscCfgC5nfs 0
      { Name := "ex1", ResourceGroup := "rgA"
        VolumeDefinitions := [⟨0, 65536⟩]
        Resources := [⟨"alpha", false, [0]⟩] }
      (by decide) (by decide) (by decide) (by decide) (by decide) (by decide) (by decide) (by decide)⟩

/-! ### C9 — Delete ordering and idempotent resource-definition delete -/

/-- C9: `Delete` removes the HA Configuration Object first, then waits
for no node to be in use, then deletes the resource definition, for both
reconcilers.  When the wait times out, the returned world is exactly the
one with the configuration already removed and nothing deleted at the
storage layer; when the wait succeeds and the resource definition exists,
the call succeeds and the mutation log shows the config removal strictly
before the resource-definition delete; when the resource definition is
already absent, its not-found result is treated as success. -/
theorem delete_order :
    (∀ (w : World) (name : String),
       waitUntilResourceCondition (deleteConfig w (nfsId name)) name noResourcesInUse =
         Except.error GwError.timeout →
       NFS.Delete w name = (Except.error GwError.timeout, deleteConfig w (nfsId name))) ∧
    (∀ (w : World) (name : String) (d : DeployedResource),
       findRes w name = some d →
       waitUntilResourceCondition (deleteConfig w (nfsId name)) name noResourcesInUse =
         Except.ok () →
       (NFS.Delete w name).1 = Except.ok () ∧
       (NFS.Delete w name).2.log =
         w.log ++ [Event.deleteConfig (nfsId name), Event.deleteResourceDefinition name]) ∧
    (∀ (w : World) (name : String),
       findRes w name = none →
       waitUntilResourceCondition (deleteConfig w (nfsId name)) name noResourcesInUse =
         Except.ok () →
       NFS.Delete w name = (Except.ok (), deleteConfig w (nfsId name))) ∧
    (∀ (w : World) (nqn : String),
       waitUntilResourceCondition (deleteConfig w (nvmeofId (nqnSubsystem nqn))) (nqnSubsystem nqn)
         noResourcesInUse = Except.error GwError.timeout →
       NVMeoF.Delete w nqn =
         (Except.error GwError.timeout, deleteConfig w (nvmeofId (nqnSubsystem nqn)))) ∧
    (∀ (w : World) (nqn : String) (d : DeployedResource),
       findRes w (nqnSubsystem nqn) = some d →
       waitUntilResourceCondition (deleteConfig w (nvmeofId (nqnSubsystem nqn))) (nqnSubsystem nqn)
         noResourcesInUse = Except.ok () →
       (NVMeoF.Delete w nqn).1 = Except.ok () ∧
       (NVMeoF.Delete w nqn).2.log =
         w.log ++ [Event.deleteConfig (nvmeofId (nqnSubsystem nqn)),
                   Event.deleteResourceDefinition (nqnSubsystem nqn)]) ∧
    (∀ (w : World) (nqn : String),
       findRes w (nqnSubsystem nqn) = none →
       waitUntilResourceCondition (deleteConfig w (nvmeofId (nqnSubsystem nqn))) (nqnSubsystem nqn)
         noResourcesInUse = Except.ok () →
       NVMeoF.Delete w nqn = (Except.ok (), deleteConfig w (nvmeofId (nqnSubsystem nqn)))) := by
  refine ⟨?_, ?_, ?_, ?_, ?_, ?_⟩
  · intro w name hwait
    simp only [NFS.Delete, hwait]
  · intro w name d hres hwait
    have h1 : findRes (deleteConfig w (nfsId name)) name = some d := hres
    simp only [NFS.Delete, hwait, deleteResourceDefinition, h1]
    constructor
    · trivial
    · simp [deleteConfig]
  · intro w name hres hwait
    have h1 : findRes (deleteConfig w (nfsId name)) name = none := hres
    simp only [NFS.Delete, hwait, deleteResourceDefinition, h1]
  · intro w nqn hwait
    simp only [NVMeoF.Delete, hwait]
  · intro w nqn d hres hwait
    have h1 : findRes (deleteConfig w (nvmeofId (nqnSubsystem nqn))) (nqnSubsystem nqn) = some d := hres
    simp only [NVMeoF.Delete, hwait, deleteResourceDefinition, h1]
    constructor
    · trivial
    · simp [deleteConfig]
  · intro w nqn hres hwait
    have h1 : findRes (deleteConfig w (nvmeofId (nqnSubsystem nqn))) (nqnSubsystem nqn) = none := hres
    simp only [NVMeoF.Delete, hwait, deleteResourceDefinition, h1]

def wC9nfsBusy : World :=
  { configs := [⟨cfgC5nfs, true⟩]
    linstor := [{ Name := "ex1", ResourceGroup := "rgA"
                  VolumeDefinitions := [⟨0, 65536⟩, ⟨1, 2048⟩]
                  Resources := [⟨"alpha", true, [0, 1]⟩] }]
    defaultPlacement := [], log := [] }

def wC9nfsIdle : World :=
  { configs := [⟨cfgC5nfs, false⟩]
    linstor := [{ Name := "ex1", ResourceGroup := "rgA"
                  VolumeDefinitions := [⟨0, 65536⟩, ⟨1, 2048⟩]
                  Resources := [⟨"alpha", false, [0, 1]⟩] }]
    defaultPlacement := [], log := [] }

def wC9empty : World := { configs := [], linstor := [], defaultPlacement := [], log := [] }

def wC9nvBusy : World :=
  { configs := [⟨cfgC5nv, true⟩]
    linstor := [{ Name := "sub1", ResourceGroup := "rgB"
                  VolumeDefinitions := [⟨0, 65536⟩, ⟨1, 4096⟩]
                  Resources := [⟨"beta", true, [0, 1]⟩] }]
    defaultPlacement := [], log := [] }

def wC9nvIdle : World :=
  { configs := [⟨cfgC5nv, false⟩]
    linstor := [{ Name := "sub1", ResourceGroup := "rgB"
                  VolumeDefinitions := [⟨0, 65536⟩, ⟨1, 4096⟩]
                  Resources := [⟨"beta", false, [0, 1]⟩] }]
    defaultPlacement := [], log := [] }

/-- C9 witness: the three `Delete` behaviours — timeout after the config
removal, ordered two-step success, and success on an absent resource
definition — on concrete worlds, for both reconcilers. -/
theorem delete_order_witness :
    NFS.Delete wC9nfsBusy "ex1" =
      (Except.error GwError.timeout, deleteConfig wC9nfsBusy (nfsId "ex1")) ∧
    ((NFS.Delete wC9nfsIdle "ex1").1 = Except.ok () ∧
     (NFS.Delete wC9nfsIdle "ex1").2.log =
       [Event.deleteConfig (nfsId "ex1"), Event.deleteResourceDefinition "ex1"]) ∧
    NFS.Delete wC9empty "gone" = (Except.ok (), deleteConfig wC9empty (nfsId "gone")) ∧
    NVMeoF.Delete wC9nvBusy "nqn.2021:sub1" =
      (Except.error GwError.timeout, deleteConfig wC9nvBusy (nvmeofId "sub1")) ∧
    ((NVMeoF.Delete wC9nvIdle "nqn.2021:sub1").1 = Except.ok () ∧
     (NVMeoF.Delete wC9nvIdle "nqn.2021:sub1").2.log =
       [Event.deleteConfig (nvmeofId "sub1"), Event.deleteResourceDefinition "sub1"]) ∧
    NVMeoF.Delete wC9empty "nqn.2021:gone" =
      (Except.ok (), deleteConfig wC9empty (nvmeofId "gone")) :=
  ⟨delete_order.1 wC9nfsBusy "ex1" (by decide),
   delete_order.2.1 wC9nfsIdle "ex1"
      { Name := "ex1", ResourceGroup := "rgA"
        VolumeDefinitions := [⟨0, 65536⟩, ⟨1, 2048⟩]
        Resources := [⟨"alpha", false, [0, 1]⟩] } (by decide) (by decide),
   delete_order.2.2.1 wC9empty "gone" (by decide) (by decide),
   delete_order.2.2.2.1 wC9nvBusy "nqn.2021:sub1" (by decide),
   delete_order.2.2.2.2.1 wC9nvIdle "nqn.2021:sub1"
      { Name := "sub1", ResourceGroup := "rgB"
        VolumeDefinitions := [⟨0, 65536⟩, ⟨1, 4096⟩]
        Resources := [⟨"beta", false, [0, 1]⟩] } (by decide) (by decide),
   delete_order.2.2.2.2.2 wC9empty "nqn.2021:gone" (by decide) (by decide)⟩

theorem nfs_Get_snd (w : World) (name : String) : (NFS.Get w name).2 = w := by
  unfold NFS.Get
  rcases hfc : findConfig w (nfsId name) with _ | cfg
  · simp [hfc]
  · simp only [hfc]
    rcases hdr : deployedResources w cfg with e | ⟨rd, vds, ress⟩
    · simp [hdr]
    · simp only [hdr]
      rcases hfp : NFS.FromPromoter cfg rd vds with e | dep <;> simp [hfp]

theorem nv_Get_snd (w : World) (nqn : String) : (NVMeoF.Get w nqn).2 = w := by
  unfold NVMeoF.Get
  rcases hfc : findConfig w (nvmeofId (nqnSubsystem nqn)) with _ | cfg
  · simp [hfc]
  · simp only [hfc]
    rcases hdr : deployedResources w cfg with e | ⟨rd, vds, ress⟩
    · simp [hdr]
    · simp only [hdr]
      rcases hfp : NVMeoF.FromPromoter cfg rd vds with e | dep <;> simp [hfp]

theorem nfs_Start_log (w : World) (name : String) :
    ∃ t, (NFS.Start w name).2.log = w.log ++ t := by
  unfold NFS.Start
  rcases hfc : findConfig w (nfsId name) with _ | cfg
  · exact ⟨[], by simp [hfc]⟩
  · simp only [hfc]
    rcases hw : waitUntilResourceCondition (attachConfig w cfg) name anyResourcesInUse with e | u
    · refine ⟨[Event.attachConfig cfg.ID], ?_⟩
      simp only [hw]
      simp [attachConfig]
    · refine ⟨[Event.attachConfig cfg.ID], ?_⟩
      simp only [hw]
      rw [nfs_Get_snd]
      simp [attachConfig]

theorem nv_Start_log (w : World) (nqn : String) :
    ∃ t, (NVMeoF.Start w nqn).2.log = w.log ++ t := by
  unfold NVMeoF.Start
  rcases hfc : findConfig w (nvmeofId (nqnSubsystem nqn)) with _ | cfg
  · exact ⟨[], by simp [hfc]⟩
  · simp only [hfc]
    rcases hw : waitUntilResourceCondition (attachConfig w cfg) (nqnSubsystem nqn) anyResourcesInUse with e | u
    · refine ⟨[Event.attachConfig cfg.ID], ?_⟩
      simp only [hw]
      simp [attachConfig]
    · refine ⟨[Event.attachConfig cfg.ID], ?_⟩
      simp only [hw]
      rw [nv_Get_snd]
      simp [attachConfig]

/-! ### C10 — DeleteVolume of an absent volume number is a pure no-op -/

/-- C10: when the configuration exists, the service is not started, and
no deployed volume carries the given number, `DeleteVolume` returns
exactly what a plain `Get` on the unchanged world returns: no
volume-definition delete, no config re-persist, no log entry, for both
reconcilers (and `Get` itself never changes the world). -/
theorem delete_volume_noop :
    (∀ (w : World) (name : String) (lun : Int) (cfg : PromoterConfig)
       (rd : ResourceDefinition) (vds : List VolumeDefinition) (ress : List ResourceEntry)
       (rscCfg : NFS.ResourceConfig),
       findConfig w (nfsId name) = some cfg →
       deployedResources w cfg = Except.ok (rd, vds, ress) →
       NFS.FromPromoter cfg rd vds = Except.ok rscCfg →
       anyResourcesInUse ress = false →
       rscCfg.Volumes.findIdx? (fun v => v.Number == lun) = none →
       NFS.DeleteVolume w name lun = NFS.Get w name ∧ (NFS.Get w name).2 = w) ∧
    (∀ (w : World) (nqn : String) (nsid : Int) (cfg : PromoterConfig)
       (rd : ResourceDefinition) (vds : List VolumeDefinition) (ress : List ResourceEntry)
       (rscCfg : NVMeoF.ResourceConfig),
       findConfig w (nvmeofId (nqnSubsystem nqn)) = some cfg →
       deployedResources w cfg = Except.ok (rd, vds, ress) →
       NVMeoF.FromPromoter cfg rd vds = Except.ok rscCfg →
       anyResourcesInUse ress = false →
       rscCfg.Volumes.findIdx? (fun v => v.Number == nsid) = none →
       NVMeoF.DeleteVolume w nqn nsid = NVMeoF.Get w nqn ∧ (NVMeoF.Get w nqn).2 = w) := by
  constructor
  · intro w name lun cfg rd vds ress rscCfg hfind hd hfp hstop hidx
    refine ⟨?_, nfs_Get_snd w name⟩
    simp [NFS.DeleteVolume, hfind, hd, hfp, statusFromResources, hstop, hidx]
  · intro w nqn nsid cfg rd vds ress rscCfg hfind hd hfp hstop hidx
    refine ⟨?_, nv_Get_snd w nqn⟩
    simp [NVMeoF.DeleteVolume, hfind, hd, hfp, statusFromResources, hstop, hidx]

/-- C10 witness: deleting an absent volume number on concrete worlds is
the identity on the world and returns the plain `Get` result. -/
theorem delete_volume_noop_witness :
    (NFS.DeleteVolume wC5nfsOff "ex1" 7 = NFS.Get wC5nfsOff "ex1" ∧
     (NFS.Get wC5nfsOff "ex1").2 = wC5nfsOff) ∧
    (NVMeoF.DeleteVolume wC5nvOff "nqn.2021:sub1" 7 = NVMeoF.Get wC5nvOff "nqn.2021:sub1" ∧
     (NVMeoF.Get wC5nvOff "nqn.2021:sub1").2 = wC5nvOff) :=
  ⟨delete_volume_noop.1 wC5nfsOff "ex1" 7 cfgC5nfs ⟨"ex1"⟩
      [⟨0, 65536⟩, ⟨1, 2048⟩] [⟨"alpha", false, [0, 1]⟩] rscCfgC5nfs
      (by decide) (by decide) (by decide) (by decide) (by decide),
   delete_volume_noop.2 wC5nvOff "nqn.2021:sub1" 7 cfgC5nv ⟨"sub1"⟩
      [⟨0, 65536⟩, ⟨1, 4096⟩] [⟨"beta", false, [0, 1]⟩] depC5nv
      (by decide) (by decide) (by decide) (by decide) (by decide)⟩

/-! ### C8 — AddVolume against an already-present volume number -/

/-- C8: when `NVMeoF.AddVolume` finds a deployed volume under the
requested number, a differing size fails with the
"existing volume has differing size" error and no mutation at all; an
exactly matching size issues no ensure-resource reconciliation but still
re-persists the HA Configuration Object (the world advances exactly by
that one config write). -/
theorem add_volume_existing_number :
    (∀ (w : World) (nqn : String) (volCfg : VolumeConfig) (cfg : PromoterConfig)
       (rd : ResourceDefinition) (vds : List VolumeDefinition) (ress : List ResourceEntry)
       (dep : NVMeoF.ResourceConfig) (v : VolumeConfig),
       findConfig w (nvmeofId (nqnSubsystem nqn)) = some cfg →
       deployedResources w cfg = Except.ok (rd, vds, ress) →
       NVMeoF.FromPromoter cfg rd vds = Except.ok dep →
       dep.Volumes.find? (fun x => x.Number == volCfg.Number) = some v →
       v.SizeKiB ≠ volCfg.SizeKiB →
       NVMeoF.AddVolume w nqn volCfg =
         (Except.error (GwError.conflict "existing volume has differing size"), w)) ∧
    (∀ (w : World) (nqn : String) (volCfg : VolumeConfig) (cfg : PromoterConfig)
       (rd : ResourceDefinition) (vds : List VolumeDefinition) (ress : List ResourceEntry)
       (dep : NVMeoF.ResourceConfig) (v : VolumeConfig),
       findConfig w (nvmeofId (nqnSubsystem nqn)) = some cfg →
       deployedResources w cfg = Except.ok (rd, vds, ress) →
       NVMeoF.FromPromoter cfg rd vds = Except.ok dep →
       dep.Volumes.find? (fun x => x.Number == volCfg.Number) = some v →
       v.SizeKiB = volCfg.SizeKiB →
       NVMeoF.AddVolume w nqn volCfg =
         (Except.ok (some { dep with Status := some (statusFromResources ress) }),
          ensureConfig w (NVMeoF.ToPromoter dep ress)) ∧
       (NVMeoF.AddVolume w nqn volCfg).2.log =
         w.log ++ [Event.ensureConfig (nvmeofId (nqnSubsystem dep.NQN))]) := by
  constructor
  · intro w nqn volCfg cfg rd vds ress dep v hfind hd hfp hfound hsz
    simp [NVMeoF.AddVolume, hfind, hd, hfp, hfound, hsz]
  · intro w nqn volCfg cfg rd vds ress dep v hfind hd hfp hfound hsz
    have h1 : NVMeoF.AddVolume w nqn volCfg =
        (Except.ok (some { dep with Status := some (statusFromResources ress) }),
         ensureConfig w (NVMeoF.ToPromoter dep ress)) := by
      simp [NVMeoF.AddVolume, hfind, hd, hfp, hfound, hsz]
    refine ⟨h1, ?_⟩
    rw [h1]
    simp [ensureConfig, NVMeoF.ToPromoter]

/-- C8 witness: a size mismatch on an existing number fails; an exact
match re-persists the configuration and nothing else, on a concrete
world. -/
theorem add_volume_existing_number_witness :
    NVMeoF.AddVolume wC5nvOff "nqn.2021:sub1" ⟨1, 5000⟩ =
      (Except.error (GwError.conflict "existing volume has differing size"), wC5nvOff) ∧
    (NVMeoF.AddVolume wC5nvOff "nqn.2021:sub1" ⟨1, 4096⟩ =
      (Except.ok (some { depC5nv with Status := some (statusFromResources [⟨"beta", false, [0, 1]⟩]) }),
       ensureConfig wC5nvOff (NVMeoF.ToPromoter depC5nv [⟨"beta", false, [0, 1]⟩])) ∧
     (NVMeoF.AddVolume wC5nvOff "nqn.2021:sub1" ⟨1, 4096⟩).2.log =
       [Event.ensureConfig (nvmeofId "sub1")]) :=
  ⟨add_volume_existing_number.1 wC5nvOff "nqn.2021:sub1" ⟨1, 5000⟩ cfgC5nv ⟨"sub1"⟩
      [⟨0, 65536⟩, ⟨1, 4096⟩] [⟨"beta", false, [0, 1]⟩] depC5nv ⟨1, 4096⟩
      (by decide) (by decide) (by decide) (by decide) (by decide),
   add_volume_existing_number.2 wC5nvOff "nqn.2021:sub1" ⟨1, 4096⟩ cfgC5nv ⟨"sub1"⟩
      [⟨0, 65536⟩, ⟨1, 4096⟩] [⟨"beta", false, [0, 1]⟩] depC5nv ⟨1, 4096⟩
      (by decide) (by decide) (by decide) (by decide) (by decide)⟩

/-! ### C7 — where the cluster-private volume is prepended -/

/-- C7 (amended): in `NFS.Create` the cluster-private volume 0 is
prepended only in the fresh-create branch — the ensure-resource call
receives the full volume set with 0 first, while the idempotence
comparison against an existing deployment is performed on the requested
volumes without volume 0.  In `NVMeoF.Create` the prepend happens
unconditionally before the existence check, so the ensure-resource call
likewise receives 0 first but the idempotence comparison is performed on
the 0-prepended volumes (the `Effective` descriptor). -/
theorem cluster_private_prepend :
    (∀ (w w₁ : World) (rsc : NFS.ResourceConfig) (rd : ResourceDefinition)
       (dep : List ResourceEntry),
       NFS.Valid (NFS.FillDefaults rsc) = true →
       NFS.signatureConflict w.configs (nfsId (NFS.FillDefaults rsc).Name) = none →
       findConfig w (nfsId (NFS.FillDefaults rsc).Name) = none →
       findRes w (NFS.FillDefaults rsc).Name = none →
       ensureResource w
         ⟨(NFS.FillDefaults rsc).Name, (NFS.FillDefaults rsc).ResourceGroup,
          clusterPrivateVolume :: (NFS.FillDefaults rsc).Volumes, false⟩ false =
         (Except.ok (rd, dep), w₁) →
       ∃ rest, (NFS.Create w rsc).2.log =
         w.log ++ Event.ensureResource (NFS.FillDefaults rsc).Name
           (0 :: (NFS.FillDefaults rsc).Volumes.map (·.Number)) :: rest) ∧
    (∀ (w : World) (rsc : NFS.ResourceConfig) (cfg : PromoterConfig)
       (rd : ResourceDefinition) (vds : List VolumeDefinition) (ress : List ResourceEntry)
       (dep : NFS.ResourceConfig),
       NFS.Valid (NFS.FillDefaults rsc) = true →
       NFS.signatureConflict w.configs (nfsId (NFS.FillDefaults rsc).Name) = none →
       findConfig w (nfsId (NFS.FillDefaults rsc).Name) = some cfg →
       deployedResources w cfg = Except.ok (rd, vds, ress) →
       NFS.FromPromoter cfg rd vds = Except.ok dep →
       NFS.Matches (NFS.FillDefaults rsc) dep = true →
       NFS.Create w rsc = (Except.ok { dep with Status := some (statusFromResources ress) }, w)) ∧
    (∀ (w w₁ : World) (rsc : NVMeoF.ResourceConfig) (rd : ResourceDefinition)
       (dep : List ResourceEntry),
       NVMeoF.Valid (NVMeoF.Effective rsc) = true →
       findConfig w (nvmeofId (nqnSubsystem rsc.NQN)) = none →
       findRes w (nqnSubsystem rsc.NQN) = none →
       ensureResource w
         ⟨nqnSubsystem rsc.NQN, (NVMeoF.FillDefaults rsc).ResourceGroup,
          clusterPrivateVolume :: (NVMeoF.FillDefaults rsc).Volumes,
          (NVMeoF.FillDefaults rsc).GrossSize⟩ false =
         (Except.ok (rd, dep), w₁) →
       ∃ rest, (NVMeoF.Create w rsc).2.log =
         w.log ++ Event.ensureResource (nqnSubsystem rsc.NQN)
           (0 :: (NVMeoF.FillDefaults rsc).Volumes.map (·.Number)) :: rest) ∧
    (∀ (w : World) (rsc : NVMeoF.ResourceConfig) (cfg : PromoterConfig)
       (rd : ResourceDefinition) (vds : List VolumeDefinition) (ress : List ResourceEntry)
       (dep : NVMeoF.ResourceConfig),
       NVMeoF.Valid (NVMeoF.Effective rsc) = true →
       findConfig w (nvmeofId (nqnSubsystem rsc.NQN)) = some cfg →
       deployedResources w cfg = Except.ok (rd, vds, ress) →
       NVMeoF.FromPromoter cfg rd vds = Except.ok dep →
       NVMeoF.Matches (NVMeoF.Effective rsc) dep = true →
       NVMeoF.Create w rsc = (Except.ok { dep with Status := some (statusFromResources ress) }, w)) := by
  refine ⟨?_, ?_, ?_, ?_⟩
  · intro w w₁ rsc rd dep hv hs hfc hfres her
    have hw1 := congrArg (fun p => p.2.log) her
    simp [ensureResource, hfres, clusterPrivateVolume] at hw1
    obtain ⟨t, ht⟩ := nfs_Start_log
      (ensureConfig w₁ (NFS.ToPromoter (NFS.FillDefaults rsc) dep)) (NFS.FillDefaults rsc).Name
    rcases hst : NFS.Start
        (ensureConfig w₁ (NFS.ToPromoter (NFS.FillDefaults rsc) dep)) (NFS.FillDefaults rsc).Name
      with ⟨res, w₃⟩
    rw [hst] at ht
    simp only [NFS.Create, hv, hs, hfc, her, hst]
    refine ⟨Event.ensureConfig (nfsId (NFS.FillDefaults rsc).Name) :: t, ?_⟩
    have hlog : w₃.log = w₁.log ++ [Event.ensureConfig (nfsId (NFS.FillDefaults rsc).Name)] ++ t := by
      simpa [ensureConfig, NFS.ToPromoter] using ht
    cases res <;> simp [hlog, ← hw1]
  · intro w rsc cfg rd vds ress dep hv hs hf hd hfp hm
    simp [NFS.Create, hv, hs, hf, hd, hfp, hm]
  · intro w w₁ rsc rd dep hv hfc hfres her
    have hw1 := congrArg (fun p => p.2.log) her
    simp [ensureResource, hfres, clusterPrivateVolume] at hw1
    simp [NVMeoF.Effective] at hv
    obtain ⟨t, ht⟩ := nv_Start_log
      (ensureConfig w₁ (NVMeoF.ToPromoter (NVMeoF.Effective rsc) dep)) rsc.NQN
    rcases hst : NVMeoF.Start
        (ensureConfig w₁ (NVMeoF.ToPromoter (NVMeoF.Effective rsc) dep)) rsc.NQN
      with ⟨res, w₃⟩
    rw [hst] at ht
    simp only [NVMeoF.Effective, NVMeoF.FillDefaults_NQN] at hst
    simp only [NVMeoF.Create, hv, hfc, her, hst, NVMeoF.FillDefaults_NQN]
    refine ⟨Event.ensureConfig (nvmeofId (nqnSubsystem rsc.NQN)) :: t, ?_⟩
    have hlog : w₃.log = w₁.log ++ [Event.ensureConfig (nvmeofId (nqnSubsystem rsc.NQN))] ++ t := by
      simpa [ensureConfig, NVMeoF.ToPromoter, NVMeoF.Effective] using ht
    cases res <;> simp [hlog, ← hw1]
  · intro w rsc cfg rd vds ress dep hv hf hd hfp hm
    simp [NVMeoF.Effective] at hv hm
    simp [NVMeoF.Create, hv, hf, hd, hfp, hm]

def wC7nfs : World :=
  { configs := [], linstor := [], defaultPlacement := [⟨"alpha", true, []⟩], log := [] }

def rscC7nfs : NFS.ResourceConfig :=
  { Name := "fx", ServiceIP := "192.168.2.1/24", ResourceGroup := "rgA"
    Volumes := [⟨1, 1000⟩], Status := none }

def w1C7nfs : World :=
  { configs := []
    linstor := [{ Name := "fx", ResourceGroup := "rgA"
                  VolumeDefinitions := [⟨0, 65536⟩, ⟨1, 1000⟩]
                  Resources := [⟨"alpha", true, [0, 1]⟩] }]
    defaultPlacement := [⟨"alpha", true, []⟩]
    log := [Event.ensureResource "fx" [0, 1]] }

def wC7nv : World :=
  { configs := [], linstor := [], defaultPlacement := [⟨"beta", true, []⟩], log := [] }

def rscC7nv : NVMeoF.ResourceConfig :=
  { NQN := "nqn.2021:fy", ServiceIP := "10.2.2.2/24", ResourceGroup := "rgB"
    Volumes := [⟨1, 1000⟩], GrossSize := false, Status := none }

def w1C7nv : World :=
  { configs := []
    linstor := [{ Name := "fy", ResourceGroup := "rgB"
                  VolumeDefinitions := [⟨0, 65536⟩, ⟨1, 1000⟩]
                  Resources := [⟨"beta", true, [0, 1]⟩] }]
    defaultPlacement := [⟨"beta", true, []⟩]
    log := [Event.ensureResource "fy" [0, 1]] }

def rscC7nfsB : NFS.ResourceConfig :=
  { Name := "ex1", ServiceIP := "192.168.1.5/24", ResourceGroup := "rgA"
    Volumes := [⟨1, 2048⟩], Status := none }

def rscC7nvD : NVMeoF.ResourceConfig :=
  { NQN := "nqn.2021:sub1", ServiceIP := "10.1.1.1/24", ResourceGroup := "rgB"
    Volumes := [⟨1, 4096⟩], GrossSize := false, Status := none }

/-- C7 witness: concrete runs of all four behaviours — both fresh-create
branches log an ensure-resource call whose volume list starts with 0,
the NFS idempotence comparison passes on the 0-free request, and the
NVMe-oF idempotence comparison passes on the 0-prepended request. -/
theorem cluster_private_prepend_witness :
    (∃ rest, (NFS.Create wC7nfs rscC7nfs).2.log =
       wC7nfs.log ++ Event.ensureResource "fx" [0, 1] :: rest) ∧
    NFS.Create wC5nfsOff rscC7nfsB =
      (Except.ok { rscCfgC5nfs with
                     Status := some (statusFromResources [⟨"alpha", false, [0, 1]⟩]) }, wC5nfsOff) ∧
    (∃ rest, (NVMeoF.Create wC7nv rscC7nv).2.log =
       wC7nv.log ++ Event.ensureResource "fy" [0, 1] :: rest) ∧
    NVMeoF.Create wC5nvOff rscC7nvD =
      (Except.ok { depC5nv with
                     Status := some (statusFromResources [⟨"beta", false, [0, 1]⟩]) }, wC5nvOff) :=
  ⟨cluster_private_prepend.1 wC7nfs w1C7nfs rscC7nfs ⟨"fx"⟩ [⟨"alpha", true, [0, 1]⟩]
      (by decide) (by decide) (by decide) (by decide) (by decide),
   cluster_private_prepend.2.1 wC5nfsOff rscC7nfsB cfgC5nfs ⟨"ex1"⟩ [⟨0, 65536⟩, ⟨1, 2048⟩]
      [⟨"alpha", false, [0, 1]⟩] rscCfgC5nfs
      (by decide) (by decide) (by decide) (by decide) (by decide) (by decide),
   cluster_private_prepend.2.2.1 wC7nv w1C7nv rscC7nv ⟨"fy"⟩ [⟨"beta", true, [0, 1]⟩]
      (by decide) (by decide) (by decide) (by decide),
   cluster_private_prepend.2.2.2 wC5nvOff rscC7nvD cfgC5nv ⟨"sub1"⟩ [⟨0, 65536⟩, ⟨1, 4096⟩]
      [⟨"beta", false, [0, 1]⟩] depC5nv
      (by decide) (by decide) (by decide) (by decide) (by decide)⟩

def cfgC7x : PromoterConfig :=
  { ID := "nvmeof-sub7", RscName := "sub7"
    Resources := [⟨["ocf:heartbeat:IPaddr2", "ocf:heartbeat:nvmet-subsystem"]⟩]
    VolNumbers := [0], Nodes := ["gamma"]
    Payl := ⟨"10.7.7.7/24", "rgC", "nqn.2021:sub7", false⟩ }

def wC7x : World :=
  { configs := [⟨cfgC7x, true⟩]
    linstor := [{ Name := "sub7", ResourceGroup := "rgC"
                  VolumeDefinitions := [⟨0, 65536⟩]
                  Resources := [⟨"gamma", false, [0]⟩] }]
    defaultPlacement := [], log := [] }

def rscC7x : NVMeoF.ResourceConfig :=
  { NQN := "nqn.2021:sub7", ServiceIP := "10.7.7.7/24", ResourceGroup := "rgC"
    Volumes := [], GrossSize := false, Status := none }

def depC7x : NVMeoF.ResourceConfig :=
  { NQN := "nqn.2021:sub7", ServiceIP := "10.7.7.7/24", ResourceGroup := "rgC"
    Volumes := [⟨0, 65536⟩], GrossSize := false, Status := none }

/-- C7 counterexample: in `NVMeoF.Create` the comparison against an
existing deployment is not performed on the requested volumes without
volume 0.  On this world the requested descriptor (volumes without 0,
after defaults) does not match the reconstructed deployment, yet `Create`
returns it as an idempotent success instead of failing — because the
comparison used the 0-prepended volume list. -/
theorem cluster_private_prepend_counterexample :
    NVMeoF.Create wC7x rscC7x =
      (Except.ok { depC7x with Status := some ⟨ServiceState.stopped⟩ }, wC7x) ∧
    NVMeoF.Matches (NVMeoF.FillDefaults rscC7x) depC7x = false := by
  constructor
  · decide
  · decide

theorem delVolDef_ok_log (w w₁ : World) (n : String) (num : Int) (u : Unit)
    (h : deleteVolumeDefinition w n num = (Except.ok u, w₁)) :
    w₁.log = w.log ++ [Event.deleteVolumeDefinition n num] := by
  unfold deleteVolumeDefinition at h
  rcases hfr : findRes w n with _ | d
  · simp only [hfr] at h
    simp at h
  · simp only [hfr] at h
    by_cases hv : d.VolumeDefinitions.any (fun vd => vd.Number == num) = true
    · rw [if_pos hv] at h
      have := congrArg (fun p => p.2.log) h
      simpa using this.symm
    · rw [if_neg hv] at h
      simp at h

theorem map_eraseIdx {α β : Type} (f : α → β) :
    ∀ (l : List α) (i : Nat), (l.eraseIdx i).map f = (l.map f).eraseIdx i := by
  intro l
  induction l with
  | nil => intro i; simp [List.eraseIdx]
  | cons a t ih =>
    intro i
    cases i with
    | zero => simp [List.eraseIdx]
    | succ j => simp [List.eraseIdx, ih]

theorem findIdx?_spec {α : Type} (p : α → Bool) :
    ∀ (l : List α) (i : Nat), l.findIdx? p = some i →
      ∃ a, l[i]? = some a ∧ p a = true := by
  intro l
  induction l with
  | nil => intro i h; simp [List.findIdx?] at h
  | cons a t ih =>
    intro i h
    rw [List.findIdx?_cons] at h
    by_cases hp : p a = true
    · rw [if_pos hp] at h
      injection h with h0
      subst h0
      exact ⟨a, by simp, hp⟩
    · rw [if_neg hp] at h
      rw [List.findIdx?_succ] at h
      obtain ⟨j, hj, hji⟩ := Option.map_eq_some'.mp h
      subst hji
      obtain ⟨b, hb, hpb⟩ := ih j hj
      exact ⟨b, by simpa using hb, hpb⟩

/-! ### C6 — the effects of a successful DeleteVolume -/

/-- C6 (amended): on an existing, non-started configuration holding a
volume with the given number (at index `i` of the reconstructed
descriptor's volume list), `DeleteVolume` deletes the volume definition
at the storage layer, removes the descriptor entry at index `i` (the
first entry whose `Number` equals the given number), splices index `i`
out of every fetched per-node placement record's volume list
(`deleteVolumeCore` — a positional splice, which coincides with removing
the same-numbered entry exactly when the per-node lists are aligned with
the descriptor's volume list, as they are for NVMe-oF but not for NFS,
whose descriptor omits volume 0 while placement records carry it), and
persists the HA Configuration Object re-derived from the smaller volume
set; the mutation log grows by exactly the volume-definition delete
followed by the config persist. -/
theorem delete_volume_effects :
    (∀ (w w₁ : World) (nqn : String) (nsid : Int) (cfg : PromoterConfig)
       (rd : ResourceDefinition) (vds : List VolumeDefinition) (ress : List ResourceEntry)
       (rscCfg : NVMeoF.ResourceConfig) (i : Nat),
       findConfig w (nvmeofId (nqnSubsystem nqn)) = some cfg →
       deployedResources w cfg = Except.ok (rd, vds, ress) →
       NVMeoF.FromPromoter cfg rd vds = Except.ok rscCfg →
       anyResourcesInUse ress = false →
       rscCfg.Volumes.findIdx? (fun v => v.Number == nsid) = some i →
       deleteVolumeDefinition w (nqnSubsystem nqn) nsid = (Except.ok (), w₁) →
       (∃ vI, rscCfg.Volumes[i]? = some vI ∧ (vI.Number == nsid) = true) ∧
       (NVMeoF.DeleteVolume w nqn nsid).2 =
         ensureConfig w₁ (NVMeoF.ToPromoter { rscCfg with Volumes := rscCfg.Volumes.eraseIdx i }
           (ress.map (fun e => { e with Volumes := e.Volumes.eraseIdx i }))) ∧
       (NVMeoF.DeleteVolume w nqn nsid).2.log =
         w.log ++ [Event.deleteVolumeDefinition (nqnSubsystem nqn) nsid,
                   Event.ensureConfig (nvmeofId (nqnSubsystem rscCfg.NQN))] ∧
       (NVMeoF.ToPromoter { rscCfg with Volumes := rscCfg.Volumes.eraseIdx i }
           (ress.map (fun e => { e with Volumes := e.Volumes.eraseIdx i }))).VolNumbers =
         (rscCfg.Volumes.map (·.Number)).eraseIdx i ∧
       ((∀ e ∈ ress, e.Volumes = rscCfg.Volumes.map (·.Number)) →
         ∀ e' ∈ (deleteVolumeCore rscCfg.Volumes ress i).2,
           e'.Volumes = (rscCfg.Volumes.map (·.Number)).eraseIdx i)) ∧
    (∀ (w w₁ : World) (name : String) (lun : Int) (cfg : PromoterConfig)
       (rd : ResourceDefinition) (vds : List VolumeDefinition) (ress : List ResourceEntry)
       (rscCfg : NFS.ResourceConfig) (i : Nat),
       findConfig w (nfsId name) = some cfg →
       deployedResources w cfg = Except.ok (rd, vds, ress) →
       NFS.FromPromoter cfg rd vds = Except.ok rscCfg →
       anyResourcesInUse ress = false →
       rscCfg.Volumes.findIdx? (fun v => v.Number == lun) = some i →
       deleteVolumeDefinition w name lun = (Except.ok (), w₁) →
       (∃ vI, rscCfg.Volumes[i]? = some vI ∧ (vI.Number == lun) = true) ∧
       (NFS.DeleteVolume w name lun).2 =
         ensureConfig w₁ (NFS.ToPromoter { rscCfg with Volumes := rscCfg.Volumes.eraseIdx i }
           (ress.map (fun e => { e with Volumes := e.Volumes.eraseIdx i }))) ∧
       (NFS.DeleteVolume w name lun).2.log =
         w.log ++ [Event.deleteVolumeDefinition name lun,
                   Event.ensureConfig (nfsId rscCfg.Name)] ∧
       (NFS.ToPromoter { rscCfg with Volumes := rscCfg.Volumes.eraseIdx i }
           (ress.map (fun e => { e with Volumes := e.Volumes.eraseIdx i }))).VolNumbers =
         0 :: (rscCfg.Volumes.map (·.Number)).eraseIdx i ∧
       (deleteVolumeCore rscCfg.Volumes ress i).2 =
         ress.map (fun e => { e with Volumes := e.Volumes.eraseIdx i })) := by
  constructor
  · intro w w₁ nqn nsid cfg rd vds ress rscCfg i hfind hd hfp hstop hidx hdel
    have hred : NVMeoF.DeleteVolume w nqn nsid =
        NVMeoF.Get (ensureConfig w₁ (NVMeoF.ToPromoter { rscCfg with Volumes := rscCfg.Volumes.eraseIdx i }
          (ress.map (fun e => { e with Volumes := e.Volumes.eraseIdx i })))) nqn := by
      simp [NVMeoF.DeleteVolume, hfind, hd, hfp, statusFromResources, hstop, hidx, hdel,
            deleteVolumeCore]
    refine ⟨findIdx?_spec _ _ i hidx, ?_, ?_, ?_, ?_⟩
    · rw [hred, nv_Get_snd]
    · rw [hred, nv_Get_snd]
      have hl := delVolDef_ok_log w w₁ (nqnSubsystem nqn) nsid () hdel
      simp [ensureConfig, NVMeoF.ToPromoter, hl]
    · simp [NVMeoF.ToPromoter, map_eraseIdx]
    · intro halign e' he'
      simp only [deleteVolumeCore, List.mem_map] at he'
      obtain ⟨e, he, rfl⟩ := he'
      simp [halign e he, map_eraseIdx]
  · intro w w₁ name lun cfg rd vds ress rscCfg i hfind hd hfp hstop hidx hdel
    have hred : NFS.DeleteVolume w name lun =
        NFS.Get (ensureConfig w₁ (NFS.ToPromoter { rscCfg with Volumes := rscCfg.Volumes.eraseIdx i }
          (ress.map (fun e => { e with Volumes := e.Volumes.eraseIdx i })))) name := by
      simp [NFS.DeleteVolume, hfind, hd, hfp, statusFromResources, hstop, hidx, hdel,
            deleteVolumeCore]
    refine ⟨findIdx?_spec _ _ i hidx, ?_, ?_, ?_, rfl⟩
    · rw [hred, nfs_Get_snd]
    · rw [hred, nfs_Get_snd]
      have hl := delVolDef_ok_log w w₁ name lun () hdel
      simp [ensureConfig, NFS.ToPromoter, hl]
    · simp [NFS.ToPromoter, map_eraseIdx]

/-- C6 witness: the mutation logs of successful volume deletions on
concrete worlds, obtained from the effects theorem with every hypothesis
discharged. -/
theorem delete_volume_effects_witness :
    (NVMeoF.DeleteVolume wC5nvOff "nqn.2021:sub1" 1).2.log =
      [Event.deleteVolumeDefinition "sub1" 1, Event.ensureConfig (nvmeofId "sub1")] ∧
    (NFS.DeleteVolume wC5nfsOff "ex1" 1).2.log =
      [Event.deleteVolumeDefinition "ex1" 1, Event.ensureConfig (nfsId "ex1")] :=
  ⟨(delete_volume_effects.1 wC5nvOff w1C5nv "nqn.2021:sub1" 1 cfgC5nv ⟨"sub1"⟩
      [⟨0, 65536⟩, ⟨1, 4096⟩] [⟨"beta", false, [0, 1]⟩] depC5nv 1
      (by decide) (by decide) (by decide) (by decide) (by decide) (by decide)).2.2.1,
   (delete_volume_effects.2 wC5nfsOff w1C5nfs "ex1" 1 cfgC5nfs ⟨"ex1"⟩
      [⟨0, 65536⟩, ⟨1, 2048⟩] [⟨"alpha", false, [0, 1]⟩] rscCfgC5nfs 0
      (by decide) (by decide) (by decide) (by decide) (by decide) (by decide)).2.2.1⟩

def cfgC6x : PromoterConfig :=
  { ID := "nfs-ey", RscName := "ey"
    Resources := [⟨["ocf:heartbeat:Filesystem", "ocf:heartbeat:IPaddr2",
                    "ocf:heartbeat:nfsserver", "ocf:heartbeat:exportfs"]⟩]
    VolNumbers := [0, 1, 2], Nodes := ["alpha"]
    Payl := ⟨"192.168.3.1/24", "rgA", "", false⟩ }

def wC6x : World :=
  { configs := [⟨cfgC6x, false⟩]
    linstor := [{ Name := "ey", ResourceGroup := "rgA"
                  VolumeDefinitions := [⟨0, 65536⟩, ⟨1, 1024⟩, ⟨2, 2048⟩]
                  Resources := [⟨"alpha", false, [0, 1, 2]⟩] }]
    defaultPlacement := [], log := [] }

/-- C6 counterexample: the per-node splice does not remove the
corresponding (same-numbered) entry for NFS.  Deleting volume 2 of an
NFS export whose placement records carry volumes `[0, 1, 2]` splices
index 1 (the position of volume 2 in the 0-free descriptor list) out of
the node record, leaving `[0, 2]`: volume 1's entry is dropped and
volume 2's entry — the corresponding one — survives.  The second
conjunct shows a real `NFS.DeleteVolume` run driving exactly this
splice. -/
theorem delete_volume_effects_counterexample :
    deleteVolumeCore [⟨1, 1024⟩, ⟨2, 2048⟩] [⟨"alpha", false, [0, 1, 2]⟩] 1 =
      ([⟨1, 1024⟩], [⟨"alpha", false, [0, 2]⟩]) ∧
    (NFS.DeleteVolume wC6x "ey" 2).2.log =
      [Event.deleteVolumeDefinition "ey" 2, Event.ensureConfig "nfs-ey"] := by
  constructor
  · decide
  · decide

/-! ### C4 — visibility of the cluster-private volume 0 in Get/List -/

theorem nfs_fromPromoter_no_zero (cfg : PromoterConfig) (rd : ResourceDefinition)
    (vds : List VolumeDefinition) (dep : NFS.ResourceConfig)
    (h : NFS.FromPromoter cfg rd vds = Except.ok dep) :
    ∀ v ∈ dep.Volumes, v.Number ≠ 0 := by
  unfold NFS.FromPromoter at h
  rcases hp : parseTemplated "nfs-" cfg.ID with _ | nm
  · simp only [hp] at h
    simp at h
  · simp only [hp] at h
    by_cases hag : (cfg.Resources.any fun r => r.Start.any fun t => t == "ocf:heartbeat:nfsserver") = true
    · rw [if_pos hag] at h
      injection h with h'
      subst h'
      intro v hv
      simp only [List.mem_map, List.mem_filter] at hv
      obtain ⟨vd, ⟨hvd, hne⟩, rfl⟩ := hv
      simpa using hne
    · rw [if_neg hag] at h
      simp at h

theorem nv_fromPromoter_volumes (cfg : PromoterConfig) (rd : ResourceDefinition)
    (vds : List VolumeDefinition) (dep : NVMeoF.ResourceConfig)
    (h : NVMeoF.FromPromoter cfg rd vds = Except.ok dep) :
    dep.Volumes = vds.map (fun vd => ⟨vd.Number, vd.SizeKiB⟩) := by
  unfold NVMeoF.FromPromoter at h
  rcases hp : parseTemplated "nvmeof-" cfg.ID with _ | nm
  · simp only [hp] at h
    simp at h
  · simp only [hp] at h
    by_cases hag : (cfg.Resources.any fun r => r.Start.any fun t => t == "ocf:heartbeat:nvmet-subsystem") = true
    · rw [if_pos hag] at h
      injection h with h'
      subst h'
      rfl
    · rw [if_neg hag] at h
      simp at h

/-- C4 (amended): descriptors returned by the NFS `Get` and `List` never
carry volume number 0 in their volume list; but the NVMe-oF `Get` and
`List` return the deployed volume definitions unfiltered, so their
descriptors carry volume 0 whenever it is deployed (exclusion happens
only at CLI rendering time). -/
theorem get_list_volume_zero :
    (∀ (w : World) (name : String) (r : NFS.ResourceConfig) (w' : World),
       NFS.Get w name = (Except.ok (some r), w') →
       ∀ v ∈ r.Volumes, v.Number ≠ 0) ∧
    (∀ (w : World) (r : NFS.ResourceConfig), r ∈ NFS.ListAll w →
       ∀ v ∈ r.Volumes, v.Number ≠ 0) ∧
    (∀ (w : World) (nqn : String) (r : NVMeoF.ResourceConfig) (w' : World),
       NVMeoF.Get w nqn = (Except.ok (some r), w') →
       ∃ cfg d, findConfig w (nvmeofId (nqnSubsystem nqn)) = some cfg ∧
         findRes w cfg.RscName = some d ∧
         r.Volumes = d.VolumeDefinitions.map (fun vd => ⟨vd.Number, vd.SizeKiB⟩)) ∧
    (∀ (w : World) (r : NVMeoF.ResourceConfig), r ∈ NVMeoF.ListAll w →
       ∃ s ∈ w.configs,
         r.Volumes = (deployedResourcesOrEmpty w s.cfg).2.1.map (fun vd => ⟨vd.Number, vd.SizeKiB⟩)) := by
  refine ⟨?_, ?_, ?_, ?_⟩
  · intro w name r w' h
    unfold NFS.Get at h
    rcases hfc : findConfig w (nfsId name) with _ | cfg
    · simp only [hfc] at h
      simp at h
    · simp only [hfc] at h
      rcases hdr : deployedResources w cfg with e | ⟨rd, vds, ress⟩
      · simp only [hdr] at h
        simp at h
      · simp only [hdr] at h
        rcases hfp : NFS.FromPromoter cfg rd vds with e | dep
        · simp only [hfp] at h
          simp at h
        · simp only [hfp] at h
          have hreq : r = { dep with Status := some (statusFromResources ress) } := by
            have h1 := congrArg Prod.fst h
            simp at h1
            exact h1.symm
          subst hreq
          intro v hv
          exact nfs_fromPromoter_no_zero cfg rd vds dep hfp v (by simpa using hv)
  · intro w r hr
    unfold NFS.ListAll at hr
    rw [List.mem_filterMap] at hr
    obtain ⟨s, hs, hf⟩ := hr
    rcases hp : parseTemplated "nfs-" s.cfg.ID with _ | nm
    · simp only [hp] at hf
      exact Option.noConfusion hf
    · simp only [hp] at hf
      rcases hdre : deployedResourcesOrEmpty w s.cfg with ⟨rd, vds, ress⟩
      simp only [hdre] at hf
      rcases hfp : NFS.FromPromoter s.cfg rd vds with e | parsed
      · simp only [hfp] at hf
        exact Option.noConfusion hf
      · simp only [hfp] at hf
        have hreq : r = { parsed with Status := some (statusFromResources ress) } := by
          injection hf with h1
          exact h1.symm
        subst hreq
        intro v hv
        exact nfs_fromPromoter_no_zero s.cfg rd vds parsed hfp v (by simpa using hv)
  · intro w nqn r w' h
    unfold NVMeoF.Get at h
    rcases hfc : findConfig w (nvmeofId (nqnSubsystem nqn)) with _ | cfg
    · simp only [hfc] at h
      simp at h
    · simp only [hfc] at h
      rcases hfr : findRes w cfg.RscName with _ | d
      · have hdr : deployedResources w cfg = Except.error (GwError.backend "deployed resource not found") := by
          simp [deployedResources, hfr]
        simp only [hdr] at h
        simp at h
      · have hdr : deployedResources w cfg = Except.ok (⟨d.Name⟩, d.VolumeDefinitions, d.Resources) := by
          simp [deployedResources, hfr]
        simp only [hdr] at h
        rcases hfp : NVMeoF.FromPromoter cfg ⟨d.Name⟩ d.VolumeDefinitions with e | dep
        · simp only [hfp] at h
          simp at h
        · simp only [hfp] at h
          have hreq : r = { dep with Status := some (statusFromResources d.Resources) } := by
            have h1 := congrArg Prod.fst h
            simp at h1
            exact h1.symm
          subst hreq
          refine ⟨cfg, d, ?_, ?_, ?_⟩
          · rfl
          · exact hfr
          · have hvol := nv_fromPromoter_volumes cfg ⟨d.Name⟩ d.VolumeDefinitions dep hfp
            simpa using hvol
  · intro w r hr
    unfold NVMeoF.ListAll at hr
    rw [List.mem_filterMap] at hr
    obtain ⟨s, hs, hf⟩ := hr
    rcases hp : parseTemplated "nvmeof-" s.cfg.ID with _ | nm
    · simp only [hp] at hf
      exact Option.noConfusion hf
    · simp only [hp] at hf
      rcases hdre : deployedResourcesOrEmpty w s.cfg with ⟨rd, vds, ress⟩
      simp only [hdre] at hf
      rcases hfp : NVMeoF.FromPromoter s.cfg rd vds with e | parsed
      · simp only [hfp] at hf
        exact Option.noConfusion hf
      · simp only [hfp] at hf
        have hreq : r = { parsed with Status := some (statusFromResources ress) } := by
          injection hf with h1
          exact h1.symm
        subst hreq
        refine ⟨s, hs, ?_⟩
        rw [hdre]
        have hvol := nv_fromPromoter_volumes s.cfg rd vds parsed hfp
        simpa using hvol

/-- C4 witness: concrete `Get`/`List` results for both reconcilers, with
every hypothesis of the visibility theorem discharged. -/
theorem get_list_volume_zero_witness :
    (∀ v ∈ ({ rscCfgC5nfs with Status := some ⟨ServiceState.stopped⟩ } : NFS.ResourceConfig).Volumes,
       v.Number ≠ 0) ∧
    (∀ v ∈ ({ rscCfgC5nfs with Status := some ⟨ServiceState.stopped⟩ } : NFS.ResourceConfig).Volumes,
       v.Number ≠ (0 : Int)) ∧
    (∃ cfg d, findConfig wC5nvOff (nvmeofId (nqnSubsystem "nqn.2021:sub1")) = some cfg ∧
       findRes wC5nvOff cfg.RscName = some d ∧
       ({ depC5nv with Status := some ⟨ServiceState.stopped⟩ } : NVMeoF.ResourceConfig).Volumes =
         d.VolumeDefinitions.map (fun vd => ⟨vd.Number, vd.SizeKiB⟩)) ∧
    (∃ s ∈ wC5nvOff.configs,
       ({ depC5nv with Status := some ⟨ServiceState.stopped⟩ } : NVMeoF.ResourceConfig).Volumes =
         (deployedResourcesOrEmpty wC5nvOff s.cfg).2.1.map (fun vd => ⟨vd.Number, vd.SizeKiB⟩)) :=
  ⟨get_list_volume_zero.1 wC5nfsOff "ex1"
      { rscCfgC5nfs with Status := some ⟨ServiceState.stopped⟩ } wC5nfsOff (by decide),
   get_list_volume_zero.2.1 wC5nfsOff
      { rscCfgC5nfs with Status := some ⟨ServiceState.stopped⟩ } (by decide),
   get_list_volume_zero.2.2.1 wC5nvOff "nqn.2021:sub1"
      { depC5nv with Status := some ⟨ServiceState.stopped⟩ } wC5nvOff (by decide),
   get_list_volume_zero.2.2.2 wC5nvOff
      { depC5nv with Status := some ⟨ServiceState.stopped⟩ } (by decide)⟩

/-- C4 counterexample: an NVMe-oF `Get` returns a descriptor whose
user-visible volume list contains the cluster-private volume number 0,
refuting the claim as stated for the NVMe-oF reconciler. -/
theorem get_list_volume_zero_counterexample :
    (NVMeoF.Get wC5nvOff "nqn.2021:sub1").1 =
      Except.ok (some { depC5nv with Status := some ⟨ServiceState.stopped⟩ }) ∧
    (0 : Int) ∈ ({ depC5nv with Status := some ⟨ServiceState.stopped⟩ } : NVMeoF.ResourceConfig).Volumes.map (·.Number) := by
  constructor
  · decide
  · decide
